import Mathlib

/-!
Verification development for `synologyapi`.

A shallow embedding of `synologyapi.go`: the four exported operations
(`NewConnection`, `GetSystemInfo`, `GetShareInfo`, `GetStorageInfo`), the
helpers `performHTTPCall` and `getSIDToken`, the package variable `sconn`,
and the struct declarations that direct the JSON decoding.

The Go standard library is outside the repository.  The part of it whose
behaviour decides the properties below is modelled here from its documented
behaviour:

* `http.NewRequest` rejects a URL that holds an ASCII control character
  before its fragment; its other checks, and the URL of the request it builds
  (the parsed and rendered form of the string it is given), are parameters of
  the transport;
* `http.Client.Do` is a parameter of the transport; a call of it is one event,
  and the requests the client sends inside the call while it follows redirects
  are not told apart;
* `json.Decoder.Decode` is split in two: the scanner (which turns the bytes
  of the body into a JSON value, or rejects them) is taken as given, the
  struct-directed decoding of that value is the function `value` below;
* `log.Fatal` ends the process at once, without running deferred calls.

Go strings are modelled by `String`, Go `int` by `Int` with the 64-bit range
check that the decoder applies.
-/

namespace Synology

/-! ## JSON values -/

/-- A JSON number token.  `int n` is a token without fraction and exponent
part, `dec m e` any other token, of value `m * 10 ^ e`. -/
inductive Number where
  | int (n : Int)
  | dec (mantissa : Int) (exponent : Int)
  deriving DecidableEq, Repr

/-- A JSON value as the scanner of `encoding/json` hands it to the decoder.
The members of an object are kept in the order of the text, repeated names
included. -/
inductive JSON where
  | null
  | bool (b : Bool)
  | str (s : String)
  | num (n : Number)
  | arr (xs : List JSON)
  | obj (ms : List (String × JSON))

/-! ## Go types and values -/

/-- The Go types that occur in the struct declarations of the package.  A
struct field is listed under the key of its `json` tag. -/
inductive GoType where
  | string
  | bool
  | int
  | float64
  | iface
  | slice (elem : GoType)
  | struct (fields : List (String × GoType))

/-- Go values of the types above.  `nil` is the nil slice and the nil
interface, `map` the `map[string]interface{}` that an object decodes to under
an `interface{}`.  A slice `slice xs spare` has the elements `xs`; `spare` are
the elements its backing array still holds past its length, left there when
an earlier, longer content was cut.  A `float64` is kept as the number token
it was converted from; the binary rounding of `strconv.ParseFloat` is not
modelled. -/
inductive GoValue where
  | str (s : String)
  | bool (b : Bool)
  | int (n : Int)
  | float (n : Number)
  | nil
  | slice (xs : List GoValue) (spare : List GoValue)
  | struct (fs : List (String × GoValue))
  | map (ms : List (String × GoValue))

mutual
/-- The zero value of a Go type. -/
def zero : GoType → GoValue
  | .string => .str ""
  | .bool => .bool false
  | .int => .int 0
  | .float64 => .float (.int 0)
  | .iface => .nil
  | .slice _ => .nil
  | .struct fs => .struct (zeroFields fs)
/-- The zero values of the fields of a struct. -/
def zeroFields : List (String × GoType) → List (String × GoValue)
  | [] => []
  | (tag, t) :: fs => (tag, zero t) :: zeroFields fs
end

/-- The value stored under `tag`, or `dflt`. -/
def getField : List (String × GoValue) → String → GoValue → GoValue
  | [], _, dflt => dflt
  | (k, v) :: fs, tag, dflt => if k = tag then v else getField fs tag dflt

/-- Store `v` under `tag` (the first entry of that name). -/
def setField : List (String × GoValue) → String → GoValue → List (String × GoValue)
  | [], _, _ => []
  | (k, w) :: fs, tag, v => if k = tag then (k, v) :: fs else (k, w) :: setField fs tag v

/-- Go map assignment `m[key] = v`. -/
def mapSet : List (String × GoValue) → String → GoValue → List (String × GoValue)
  | [], key, v => [(key, v)]
  | (k, w) :: m, key, v => if k = key then (k, v) :: m else (k, w) :: mapSet m key v

/-- Field selection `v.tag` on a struct value. -/
def GoValue.field (v : GoValue) (tag : String) : GoValue :=
  match v with
  | .struct fs => getField fs tag .nil
  | _ => .nil

/-- The string held by a Go string value. -/
def GoValue.asString : GoValue → String
  | .str s => s
  | _ => ""

/-! ## Struct-directed decoding (`encoding/json`) -/

/-- Number of bits of Go `int` (64-bit targets). -/
def intSize : Nat := 64

/-- Whether `strconv.ParseInt(s, 10, 64)` accepts the value and it fits `int`. -/
def intOK (n : Int) : Bool :=
  decide (-(2 : Int) ^ (intSize - 1) ≤ n) && decide (n < (2 : Int) ^ (intSize - 1))

/-- Magnitudes from this bound on round to infinity in binary64:
`strconv.ParseFloat` reports a range error for them. -/
def floatBound : Nat := 2 ^ 1024 - 2 ^ 970

/-- Whether `strconv.ParseFloat(s, 64)` accepts the token. -/
def floatOK : Number → Bool
  | .int n => decide (n.natAbs < floatBound)
  | .dec m e =>
    if 0 ≤ e then decide (m.natAbs * 10 ^ e.toNat < floatBound)
    else decide (m.natAbs < floatBound * 10 ^ (-e).toNat)

/-- Case folding of `encoding/json` on one character, as far as it can reach
an ASCII character: lower-case letters, the long s and the Kelvin sign. -/
def foldRune (c : Char) : Char :=
  if 97 ≤ c.toNat ∧ c.toNat ≤ 122 then Char.ofNat (c.toNat - 32)
  else if c.toNat = 0x17F then 'S'
  else if c.toNat = 0x212A then 'K'
  else c

/-- Folded form of an object key or a field tag. -/
def foldName (s : String) : List Char := s.toList.map foldRune

/-- The struct field an object key is decoded into: the field whose tag is
the key, else the first field whose tag equals the key up to case folding. -/
def findField (fs : List (String × GoType)) (key : String) : Option (String × GoType) :=
  match fs.find? (fun f => f.1 == key) with
  | some f => some f
  | none => fs.find? (fun f => foldName f.1 == foldName key)

/-- Fields of the struct currently held by the target. -/
def structFields (cur : GoValue) (fs : List (String × GoType)) : List (String × GoValue) :=
  match cur with
  | .struct vs => vs
  | _ => zeroFields fs

/-- The backing array of the slice currently held by the target, as far as it
has been written: its elements, then the spare elements past its length. -/
def sliceBacking : GoValue → List GoValue
  | .slice xs spare => xs ++ spare
  | _ => []

/-- The spare elements after an array of `n` elements has been decoded into a
slice with backing array `old`: what `old` holds past `n`; an empty array
makes a fresh slice. -/
def spareAfter (n : Nat) (old : List GoValue) : List GoValue :=
  if n = 0 then [] else old.drop n

mutual
/-- Decoding under an `interface{}`: `valueInterface` of `encoding/json`.  The
second component tells whether an error was saved. -/
def valueInterface : JSON → GoValue × Bool
  | .null => (.nil, false)
  | .bool b => (.bool b, false)
  | .str s => (.str s, false)
  | .num n => if floatOK n then (.float n, false) else (.nil, true)
  | .arr xs => let r := arrayInterface xs; (.slice r.1 [], r.2)
  | .obj ms => let r := objectInterface ms []; (.map r.1, r.2)
/-- Elements of an array under an `interface{}`. -/
def arrayInterface : List JSON → List GoValue × Bool
  | [] => ([], false)
  | x :: xs =>
    let a := valueInterface x
    let b := arrayInterface xs
    (a.1 :: b.1, a.2 || b.2)
/-- Members of an object under an `interface{}`, assigned to the map in turn. -/
def objectInterface : List (String × JSON) → List (String × GoValue) → List (String × GoValue) × Bool
  | [], m => (m, false)
  | (k, v) :: ms, m =>
    let a := valueInterface v
    let b := objectInterface ms (mapSet m k a.1)
    (b.1, a.2 || b.2)
/-- Decode a JSON value into a target of type `t` that holds `cur`: the new
content of the target and whether an `UnmarshalTypeError` was saved.  A type
error leaves the target as it was and decoding goes on. -/
def value : JSON → GoType → GoValue → GoValue × Bool
  | .null, t, cur =>
    match t with
    | .slice _ => (.nil, false)
    | .iface => (.nil, false)
    | _ => (cur, false)
  | .bool b, t, cur =>
    match t with
    | .bool => (.bool b, false)
    | .iface => (.bool b, false)
    | _ => (cur, true)
  | .str s, t, cur =>
    match t with
    | .string => (.str s, false)
    | .iface => (.str s, false)
    | _ => (cur, true)
  | .num n, t, cur =>
    match t with
    | .int =>
      match n with
      | .int k => if intOK k then (.int k, false) else (cur, true)
      | .dec _ _ => (cur, true)
    | .float64 => if floatOK n then (.float n, false) else (cur, true)
    | .iface => if floatOK n then (.float n, false) else (cur, true)
    | _ => (cur, true)
  | .arr xs, t, cur =>
    match t with
    | .slice et =>
      let r := array xs et (sliceBacking cur)
      (.slice r.1 (spareAfter xs.length (sliceBacking cur)), r.2)
    | .iface => let r := arrayInterface xs; (.slice r.1 [], r.2)
    | _ => (cur, true)
  | .obj ms, t, cur =>
    match t with
    | .struct fs => let r := object ms fs (structFields cur fs); (.struct r.1, r.2)
    | .iface => let r := objectInterface ms []; (.map r.1, r.2)
    | _ => (cur, true)
/-- Elements of an array decoded into a slice of element type `et` whose
backing array holds `old`.  Element `i` is decoded into what the backing array
holds at `i`: an element of the slice, a spare element left past its length,
or a zero element where the array was never written. -/
def array : List JSON → GoType → List GoValue → List GoValue × Bool
  | [], _, _ => ([], false)
  | x :: xs, et, old =>
    let a := value x et (old.headD (zero et))
    let b := array xs et old.tail
    (a.1 :: b.1, a.2 || b.2)
/-- Members of an object decoded into a struct with fields `fs`, in turn: a
key that matches no field is skipped. -/
def object : List (String × JSON) → List (String × GoType) → List (String × GoValue) →
    List (String × GoValue) × Bool
  | [], _, acc => (acc, false)
  | (k, v) :: ms, fs, acc =>
    match findField fs k with
    | none => object ms fs acc
    | some (tag, ft) =>
      let a := value v ft (getField acc tag (zero ft))
      let b := object ms fs (setField acc tag a.1)
      (b.1, a.2 || b.2)
end

/-- The call `json.NewDecoder(body).Decode(&respData)` on a fresh variable
`respData` of type `t`: `none` when `Decode` returns an error, else the
content of `respData`.  The body is `none` when the scanner finds no valid
JSON value in it. -/
def Decode (body : Option JSON) (t : GoType) : Option GoValue :=
  match body with
  | none => none
  | some j =>
    let r := value j t (zero t)
    if r.2 then none else some r.1

/-- Go type authResponseData, each field under the key of its json tag. -/
def authResponseData : GoType :=
  .struct [
    ("is_portal_port", .bool), -- IsPortalPort
    ("sid", .string) -- Sid
  ]

/-- Go type authResponse, each field under the key of its json tag. -/
def authResponse : GoType :=
  .struct [
    ("data", authResponseData), -- Data
    ("success", .bool) -- Success
  ]

/-- Go type SystemUtilizationData, each field under the key of its json tag. -/
def SystemUtilizationData : GoType :=
  .struct [
    ("cpu", -- CPU
      .struct [
        ("15min_load", .int), -- One5minLoad
        ("1min_load", .int), -- OneMinLoad
        ("5min_load", .int), -- FiveMinLoad
        ("device", .string), -- Device
        ("other_load", .int), -- OtherLoad
        ("system_load", .int), -- SystemLoad
        ("user_load", .int) -- UserLoad
      ]),
    ("disk", -- Disk
      .struct [
        ("disk", -- Disk
          .slice (.struct [
            ("device", .string), -- Device
            ("display_name", .string), -- DisplayName
            ("read_access", .int), -- ReadAccess
            ("read_byte", .int), -- ReadByte
            ("type", .string), -- Type
            ("utilization", .int), -- Utilization
            ("write_access", .int), -- WriteAccess
            ("write_byte", .int) -- WriteByte
          ])),
        ("total", -- Total
          .struct [
            ("device", .string), -- Device
            ("read_access", .int), -- ReadAccess
            ("read_byte", .int), -- ReadByte
            ("utilization", .int), -- Utilization
            ("write_access", .int), -- WriteAccess
            ("write_byte", .int) -- WriteByte
          ])
      ]),
    ("lun", -- Lun
      .slice (.struct [
        ("device", .string), -- Device
        ("path", .string), -- Path
        ("queue_exe", .int), -- QueueExe
        ("queue_que", .int), -- QueueQue
        ("queue_wbk", .int), -- QueueWbk
        ("read_avg_cmd_size", .int), -- ReadAvgCmdSize
        ("read_avg_latency", .int), -- ReadAvgLatency
        ("read_bytes", .int), -- ReadBytes
        ("read_cmd_count", .int), -- ReadCmdCount
        ("rx_avg_latency", .int), -- RxAvgLatency
        ("total_cmd_count", .int), -- TotalCmdCount
        ("total_io_latency", .int), -- TotalIoLatency
        ("total_iops", .int), -- TotalIops
        ("total_throughput", .int), -- TotalThroughput
        ("tx_avg_latency", .int), -- TxAvgLatency
        ("type", .string), -- Type
        ("uuid", .string), -- UUID
        ("write_avg_cmd_size", .int), -- WriteAvgCmdSize
        ("write_avg_latency", .int), -- WriteAvgLatency
        ("write_bytes", .int), -- WriteBytes
        ("write_cmd_count", .int) -- WriteCmdCount
      ])),
    ("memory", -- Memory
      .struct [
        ("avail_real", .int), -- AvailReal
        ("avail_swap", .int), -- AvailSwap
        ("buffer", .int), -- Buffer
        ("cached", .int), -- Cached
        ("device", .string), -- Device
        ("memory_size", .int), -- MemorySize
        ("real_usage", .int), -- RealUsage
        ("si_disk", .int), -- SiDisk
        ("so_disk", .int), -- SoDisk
        ("swap_usage", .int), -- SwapUsage
        ("total_real", .int), -- TotalReal
        ("total_swap", .int) -- TotalSwap
      ]),
    ("network", -- Network
      .slice (.struct [
        ("device", .string), -- Device
        ("rx", .int), -- Rx
        ("tx", .int) -- Tx
      ])),
    ("space", -- Space
      .struct [
        ("total", -- Total
          .struct [
            ("device", .string), -- Device
            ("read_access", .int), -- ReadAccess
            ("read_byte", .int), -- ReadByte
            ("utilization", .int), -- Utilization
            ("write_access", .int), -- WriteAccess
            ("write_byte", .int) -- WriteByte
          ]),
        ("volume", -- Volume
          .slice (.struct [
            ("device", .string), -- Device
            ("display_name", .string), -- DisplayName
            ("read_access", .int), -- ReadAccess
            ("read_byte", .int), -- ReadByte
            ("utilization", .int), -- Utilization
            ("write_access", .int), -- WriteAccess
            ("write_byte", .int) -- WriteByte
          ]))
      ]),
    ("time", .int) -- Time
  ]

/-- Go type systemUtilizationResponse, each field under the key of its json tag. -/
def systemUtilizationResponse : GoType :=
  .struct [
    ("data", SystemUtilizationData), -- Data
    ("success", .bool) -- Success
  ]

/-- Go type SharedFolderData, each field under the key of its json tag. -/
def SharedFolderData : GoType :=
  .struct [
    ("shares", -- Shares
      .slice (.struct [
        ("desc", .string), -- Desc
        ("is_usb_share", .bool), -- IsUsbShare
        ("name", .string), -- Name
        ("quota_value", .float64), -- QuotaValue
        ("share_quota_used", .float64), -- ShareQuotaUsed
        ("uuid", .string), -- UUID
        ("vol_path", .string) -- VolPath
      ])),
    ("total", .int) -- Total
  ]

/-- Go type sharedFolderReponse, each field under the key of its json tag. -/
def sharedFolderReponse : GoType :=
  .struct [
    ("data", SharedFolderData), -- Data
    ("success", .bool) -- Success
  ]

/-- Go type StorageData, each field under the key of its json tag. -/
def StorageData : GoType :=
  .struct [
    ("disks", -- Disks
      .slice (.struct [
        ("adv_progress", .string), -- AdvProgress
        ("adv_status", .string), -- AdvStatus
        ("below_remain_life_thr", .bool), -- BelowRemainLifeThr
        ("container", -- Container
          .struct [
            ("order", .int), -- Order
            ("str", .string), -- Str
            ("supportPwrBtnDisable", .bool), -- SupportPwrBtnDisable
            ("type", .string) -- Type
          ]),
        ("device", .string), -- Device
        ("disable_secera", .bool), -- DisableSecera
        ("diskType", .string), -- DiskType
        ("disk_code", .string), -- DiskCode
        ("erase_time", .int), -- EraseTime
        ("exceed_bad_sector_thr", .bool), -- ExceedBadSectorThr
        ("firm", .string), -- Firm
        ("has_system", .bool), -- HasSystem
        ("id", .string), -- ID
        ("is4Kn", .bool), -- Is4Kn
        ("isSsd", .bool), -- IsSsd
        ("isSynoPartition", .bool), -- IsSynoPartition
        ("is_erasing", .bool), -- IsErasing
        ("longName", .string), -- LongName
        ("model", .string), -- Model
        ("name", .string), -- Name
        ("num_id", .int), -- NumID
        ("order", .int), -- Order
        ("overview_status", .string), -- OverviewStatus
        ("pciSlot", .int), -- PciSlot
        ("portType", .string), -- PortType
        ("remain_life", .int), -- RemainLife
        ("serial", .string), -- Serial
        ("size_total", .string), -- SizeTotal
        ("smart_progress", .string), -- SmartProgress
        ("smart_status", .string), -- SmartStatus
        ("smart_test_limit", .int), -- SmartTestLimit
        ("status", .string), -- Status
        ("support", .bool), -- Support
        ("temp", .int), -- Temp
        ("tray_status", .string), -- TrayStatus
        ("unc", .int), -- Unc
        ("used_by", .string), -- UsedBy
        ("vendor", .string) -- Vendor
      ])),
    ("env", -- Env
      .struct [
        ("batchtask", -- Batchtask
          .struct [
            ("max_task", .int), -- MaxTask
            ("remain_task", .int) -- RemainTask
          ]),
        ("bay_number", .string), -- BayNumber
        ("ebox", .slice .iface), -- Ebox
        ("fs_acting", .bool), -- FsActing
        ("isSyncSysPartition", .bool), -- IsSyncSysPartition
        ("is_space_actioning", .bool), -- IsSpaceActioning
        ("isns", -- Isns
          .struct [
            ("address", .string), -- Address
            ("enabled", .bool) -- Enabled
          ]),
        ("isns_server", .string), -- IsnsServer
        ("max_fs_bytes", .string), -- MaxFsBytes
        ("max_fs_bytes_high_end", .string), -- MaxFsBytesHighEnd
        ("model_name", .string), -- ModelName
        ("ram_enough_for_fs_high_end", .bool), -- RAMEnoughForFsHighEnd
        ("ram_size", .int), -- RAMSize
        ("ram_size_required", .int), -- RAMSizeRequired
        ("showpooltab", .bool), -- Showpooltab
        ("status", -- Status
          .struct [
            ("system_crashed", .bool), -- SystemCrashed
            ("system_need_repair", .bool) -- SystemNeedRepair
          ]),
        ("support", -- Support
          .struct [
            ("ebox", .bool), -- Ebox
            ("raid_cross", .bool), -- RaidCross
            ("sysdef", .bool) -- Sysdef
          ]),
        ("support_fit_fs_limit", .bool), -- SupportFitFsLimit
        ("unique_key", .string) -- UniqueKey
      ]),
    ("hotSpareConf", -- HotSpareConf
      .struct [
        ("cross_repair", .bool), -- CrossRepair
        ("disable_repair", .slice .iface) -- DisableRepair
      ]),
    ("hotSpares", .slice .iface), -- HotSpares
    ("iscsiLuns", -- IscsiLuns
      .slice (.struct [
        ("can_do", -- CanDo
          .struct [
            ("convert_shr_to_pool", .int), -- ConvertShrToPool
            ("delete", .bool), -- Delete
            ("expand_by_disk", .int), -- ExpandByDisk
            ("migrate", -- Migrate
              .struct [
                ("to_shr2", .int) -- ToShr2
              ]),
            ("raid_cross", .bool) -- RaidCross
          ]),
        ("id", .string), -- ID
        ("is_actioning", .bool), -- IsActioning
        ("iscsi_lun", -- IscsiLun
          .struct [
            ("blkNum", .string), -- BlkNum
            ("device_type", .string), -- DeviceType
            ("extent_based", .bool), -- ExtentBased
            ("extent_size", .string), -- ExtentSize
            ("lid", .int), -- Lid
            ("location", .string), -- Location
            ("mapped_targets", .slice .int), -- MappedTargets
            ("name", .string), -- Name
            ("parent", .struct []), -- Parent
            ("restored_time", .string), -- RestoredTime
            ("rootpath", .string), -- Rootpath
            ("scheduled_task", -- ScheduledTask
              .slice (.struct [
                ("general", -- General
                  .struct [
                    ("lid", .int), -- Lid
                    ("snap_rotate", .bool), -- SnapRotate
                    ("snap_type", .string), -- SnapType
                    ("task_enabled", .bool), -- TaskEnabled
                    ("task_name", .string), -- TaskName
                    ("tid", .int) -- Tid
                  ]),
                ("schedule", -- Schedule
                  .struct [
                    ("date", .string), -- Date
                    ("date_type", .int), -- DateType
                    ("hour", .int), -- Hour
                    ("last_work_hour", .int), -- LastWorkHour
                    ("min", .int), -- Min
                    ("next_trigger_time", .string), -- NextTriggerTime
                    ("repeat", .int), -- Repeat
                    ("repeat_hour", .int), -- RepeatHour
                    ("repeat_hour_store_config", .iface), -- RepeatHourStoreConfig
                    ("repeat_min", .int), -- RepeatMin
                    ("repeat_min_store_config", .iface), -- RepeatMinStoreConfig
                    ("week_name", .string) -- WeekName
                  ])
              ])),
            ("size", .string), -- Size
            ("snapshots", .slice .iface), -- Snapshots
            ("thin_provision", .bool), -- ThinProvision
            ("used_by", .string), -- UsedBy
            ("uuid", .string) -- UUID
          ]),
        ("num_id", .int), -- NumID
        ("progress", -- Progress
          .struct [
            ("percent", .string), -- Percent
            ("step", .string) -- Step
          ]),
        ("status", .string) -- Status
      ])),
    ("iscsiTargets", -- IscsiTargets
      .slice (.struct [
        ("auth", -- Auth
          .struct [
            ("mutual_username", .string), -- MutualUsername
            ("type", .string), -- Type
            ("username", .string) -- Username
          ]),
        ("data_chksum", .bool), -- DataChksum
        ("enabled", .bool), -- Enabled
        ("hdr_chksum", .bool), -- HdrChksum
        ("iqn", .string), -- Iqn
        ("mapped_logical_unit_number", .slice .iface), -- MappedLogicalUnitNumber
        ("mapped_luns", .slice .iface), -- MappedLuns
        ("masking", -- Masking
          .slice (.struct [
            ("iqn", .string), -- Iqn
            ("permission", .string) -- Permission
          ])),
        ("multi_sessions", .bool), -- MultiSessions
        ("name", .string), -- Name
        ("num_id", .int), -- NumID
        ("recv_seg_bytes", .int), -- RecvSegBytes
        ("remote", .slice .iface), -- Remote
        ("send_seg_bytes", .int), -- SendSegBytes
        ("status", .string), -- Status
        ("tid", .int) -- Tid
      ])),
    ("ports", .slice .iface), -- Ports
    ("ssdCaches", .slice .iface), -- SsdCaches
    ("storagePools", .slice .iface), -- StoragePools
    ("volumes", -- Volumes
      .slice (.struct [
        ("atime_checked", .bool), -- AtimeChecked
        ("atime_opt", .string), -- AtimeOpt
        ("cacheStatus", .string), -- CacheStatus
        ("can_do", -- CanDo
          .struct [
            ("convert_shr_to_pool", .int), -- ConvertShrToPool
            ("delete", .bool), -- Delete
            ("expand_by_disk", .int), -- ExpandByDisk
            ("migrate", -- Migrate
              .struct [
                ("to_shr2", .int) -- ToShr2
              ]),
            ("raid_cross", .bool) -- RaidCross
          ]),
        ("container", .string), -- Container
        ("deploy_path", .string), -- DeployPath
        ("desc", .string), -- Desc
        ("device_type", .string), -- DeviceType
        ("disk_failure_number", .int), -- DiskFailureNumber
        ("disks", .slice .string), -- Disks
        ("drive_type", .int), -- DriveType
        ("eppool_used", .string), -- EppoolUsed
        ("exist_alive_vdsm", .bool), -- ExistAliveVdsm
        ("fs_type", .string), -- FsType
        ("id", .string), -- ID
        ("is_acting", .bool), -- IsActing
        ("is_actioning", .bool), -- IsActioning
        ("is_inode_full", .bool), -- IsInodeFull
        ("is_writable", .bool), -- IsWritable
        ("limited_disk_number", .int), -- LimitedDiskNumber
        ("max_fs_size", .string), -- MaxFsSize
        ("maximal_disk_size", .string), -- MaximalDiskSize
        ("minimal_disk_size", .string), -- MinimalDiskSize
        ("num_id", .int), -- NumID
        ("pool_path", .string), -- PoolPath
        ("progress", -- Progress
          .struct [
            ("percent", .string), -- Percent
            ("step", .string) -- Step
          ]),
        ("raids", -- Raids
          .slice (.struct [
            ("designedDiskCount", .int), -- DesignedDiskCount
            ("devices", -- Devices
              .slice (.struct [
                ("id", .string), -- ID
                ("slot", .int), -- Slot
                ("status", .string) -- Status
              ])),
            ("minDevSize", .string), -- MinDevSize
            ("normalDevCount", .int), -- NormalDevCount
            ("raidPath", .string), -- RaidPath
            ("raidStatus", .int), -- RaidStatus
            ("spares", .slice .iface) -- Spares
          ])),
        ("size", -- Size
          .struct [
            ("free_inode", .string), -- FreeInode
            ("total", .string), -- Total
            ("total_device", .string), -- TotalDevice
            ("total_inode", .string), -- TotalInode
            ("used", .string) -- Used
          ]),
        ("space_path", .string), -- SpacePath
        ("spares", .slice .iface), -- Spares
        ("ssd_trim", -- SsdTrim
          .struct [
            ("support", .string) -- Support
          ]),
        ("status", .string), -- Status
        ("suggestions", .slice .iface), -- Suggestions
        ("timebackup", .bool), -- Timebackup
        ("used_by_gluster", .bool), -- UsedByGluster
        ("vol_path", .string), -- VolPath
        ("vspace_can_do", -- VspaceCanDo
          .struct [
            ("drbd", -- Drbd
              .struct [
                ("resize", -- Resize
                  .struct [
                    ("can_do", .bool), -- CanDo
                    ("errCode", .int), -- ErrCode
                    ("stopService", .bool) -- StopService
                  ])
              ]),
            ("flashcache", -- Flashcache
              .struct [
                ("apply", -- Apply
                  .struct [
                    ("can_do", .bool), -- CanDo
                    ("errCode", .int), -- ErrCode
                    ("stopService", .bool) -- StopService
                  ]),
                ("remove", -- Remove
                  .struct [
                    ("can_do", .bool), -- CanDo
                    ("errCode", .int), -- ErrCode
                    ("stopService", .bool) -- StopService
                  ]),
                ("resize", -- Resize
                  .struct [
                    ("can_do", .bool), -- CanDo
                    ("errCode", .int), -- ErrCode
                    ("stopService", .bool) -- StopService
                  ])
              ]),
            ("snapshot", -- Snapshot
              .struct [
                ("resize", -- Resize
                  .struct [
                    ("can_do", .bool), -- CanDo
                    ("errCode", .int), -- ErrCode
                    ("stopService", .bool) -- StopService
                  ])
              ])
          ])
      ]))
  ]

/-- Go type storageResponse, each field under the key of its json tag. -/
def storageResponse : GoType :=
  .struct [
    ("data", StorageData), -- Data
    ("success", .bool) -- Success
  ]

/-! ## HTTP transport (`net/http`) -/

/-- An HTTP request as built by `http.NewRequest(method, url, nil)`: its
method, and its URL as the library parsed and rendered the string `url`. -/
structure Request where
  method : String
  url : String
  deriving DecidableEq, Repr

/-- An HTTP response.  `body` is what the JSON scanner finds in `resp.Body`:
`none` when the body does not start with a syntactically valid JSON value. -/
structure Response where
  status : Nat
  body : Option JSON

/-- The world outside the package: which requests `http.NewRequest` can build
(`accepts`, apart from the control-character check modelled in `NewRequest`),
the URL of the request it builds from a URL string (`render`, the string as
`net/url` parses and renders it), and what `client.Do` answers to a request
(`roundTrip`, `none` standing for a transport error). -/
structure Transport where
  accepts : String → String → Bool
  render : String → String
  roundTrip : Request → Option Response

/-- The check of `net/url`: an ASCII control character anywhere in the URL. -/
def stringContainsCTLByte (s : String) : Bool :=
  s.toList.any (fun c => decide (c.toNat < 0x20) || decide (c.toNat = 0x7f))

/-- The part of a URL string before its fragment: up to the first `#`. -/
def beforeFragment (url : String) : String :=
  ⟨url.toList.takeWhile (fun c => c != '#')⟩

/-- The call `http.NewRequest(method, url, nil)`: `none` when it returns an
error.  An empty method stands for GET; the URL of the request is the string
as the library renders it. -/
def NewRequest (T : Transport) (method url : String) : Option Request :=
  if stringContainsCTLByte (beforeFragment url) then none
  else if T.accepts method url then some ⟨if method = "" then "GET" else method, T.render url⟩
  else none

/-- What an operation does to the outside, in order: `request` is a call of
`client.Do` with a request of this method and URL, `closeBody` the call
`resp.Body.Close()`. -/
inductive Event where
  | request (method url : String)
  | closeBody
  deriving DecidableEq, Repr

/-- How a call ends: it returns, `log.Fatal` ends the process, or a run-time
panic (nil pointer dereference) unwinds it. -/
inductive Outcome (α : Type) where
  | returned (a : α)
  | fatal
  | panicked

/-- Outcome of a call together with the events it caused. -/
structure Run (α : Type) where
  outcome : Outcome α
  events : List Event

/-- The requests handed to `client.Do` among the events. -/
def requests : List Event → List (String × String)
  | [] => []
  | .request m u :: es => (m, u) :: requests es
  | .closeBody :: es => requests es

/-! ## The package state -/

/-- Go type `SynologyConnection`. -/
structure SynologyConnection where
  origin : String
  token : String
  deriving DecidableEq, Repr

/-- A value of type `*SynologyConnection`: nil, the address of the package
variable `sconn`, or the address of a connection variable of the caller. -/
inductive Ptr where
  | nil
  | sconn
  | heap (addr : Nat)
  deriving DecidableEq, Repr

/-- The connection variables of the process: the package variable `sconn` and
the variables of the caller. -/
structure Mem where
  sconn : SynologyConnection
  heap : Nat → SynologyConnection

/-- Dereference of a connection pointer; `none` is the nil dereference. -/
def Mem.load (m : Mem) : Ptr → Option SynologyConnection
  | .nil => none
  | .sconn => some m.sconn
  | .heap a => some (m.heap a)

/-! ## The functions of the package -/

/-- Go function `performHTTPCall`. -/
def performHTTPCall (T : Transport) (method url : String) : Run Response :=
  match NewRequest T method url with
  | none => ⟨.fatal, []⟩
  | some req =>
    match T.roundTrip req with
    | none => ⟨.fatal, [.request req.method req.url]⟩
    | some resp => ⟨.returned resp, [.request req.method req.url]⟩

/-- Go function `getSIDToken`; it reads `sconn.origin`. -/
def getSIDToken (T : Transport) (m : Mem) (account password : String) : Run String :=
  let authVersion := "6"
  let url := m.sconn.origin ++ "/webapi/auth.cgi?api=SYNO.API.Auth&version=" ++ authVersion
    ++ "&method=login&account=" ++ account ++ "&passwd=" ++ password
    ++ "&session=Core&format=cookie"
  match performHTTPCall T "GET" url with
  | ⟨.returned resp, ev⟩ =>
    match Decode resp.body authResponse with
    | none => ⟨.fatal, ev⟩
    | some respData => ⟨.returned ((respData.field "data").field "sid").asString, ev ++ [.closeBody]⟩
  | ⟨.fatal, ev⟩ => ⟨.fatal, ev⟩
  | ⟨.panicked, ev⟩ => ⟨.panicked, ev⟩

/-- Go function `NewConnection`: it writes `sconn.origin`, then `sconn.token`,
and returns `&sconn`.  The memory after the call comes with the pointer. -/
def NewConnection (T : Transport) (m : Mem) (host port account password : String) :
    Run (Ptr × Mem) :=
  let m1 : Mem := { m with sconn := { m.sconn with origin := "http://" ++ host ++ ":" ++ port } }
  match getSIDToken T m1 account password with
  | ⟨.returned tok, ev⟩ =>
    ⟨.returned (.sconn, { m1 with sconn := { m1.sconn with token := tok } }), ev⟩
  | ⟨.fatal, ev⟩ => ⟨.fatal, ev⟩
  | ⟨.panicked, ev⟩ => ⟨.panicked, ev⟩

/-- Go function `GetSystemInfo`; the result is the decoded `respData.Data`. -/
def GetSystemInfo (T : Transport) (m : Mem) (conn : Ptr) : Run GoValue :=
  match m.load conn with
  | none => ⟨.panicked, []⟩
  | some c =>
    let version := "1"
    let url := c.origin ++ "/webapi/entry.cgi?api=SYNO.Core.System.Utilization&version="
      ++ version ++ "&method=get&_sid=" ++ c.token
    match performHTTPCall T "GET" url with
    | ⟨.returned resp, ev⟩ =>
      match Decode resp.body systemUtilizationResponse with
      | none => ⟨.fatal, ev⟩
      | some respData => ⟨.returned (respData.field "data"), ev ++ [.closeBody]⟩
    | ⟨.fatal, ev⟩ => ⟨.fatal, ev⟩
    | ⟨.panicked, ev⟩ => ⟨.panicked, ev⟩

/-- Go function `GetShareInfo`; the result is the decoded `respData.Data`. -/
def GetShareInfo (T : Transport) (m : Mem) (conn : Ptr) : Run GoValue :=
  match m.load conn with
  | none => ⟨.panicked, []⟩
  | some c =>
    let version := "1"
    let url := c.origin
      ++ "/webapi/entry.cgi?api=SYNO.Core.Share&shareType=all&additional=%5B%22share_quota%22%5D&method=list&version="
      ++ version ++ "&_sid=" ++ c.token
    match performHTTPCall T "GET" url with
    | ⟨.returned resp, ev⟩ =>
      match Decode resp.body sharedFolderReponse with
      | none => ⟨.fatal, ev⟩
      | some respData => ⟨.returned (respData.field "data"), ev ++ [.closeBody]⟩
    | ⟨.fatal, ev⟩ => ⟨.fatal, ev⟩
    | ⟨.panicked, ev⟩ => ⟨.panicked, ev⟩

/-- Go function `GetStorageInfo`; the result is the decoded `respData.Data`. -/
def GetStorageInfo (T : Transport) (m : Mem) (conn : Ptr) : Run GoValue :=
  match m.load conn with
  | none => ⟨.panicked, []⟩
  | some c =>
    let version := "1"
    let url := c.origin ++ "/webapi/entry.cgi?api=SYNO.Storage.CGI.Storage&version="
      ++ version ++ "&method=load_info&_sid=" ++ c.token
    match performHTTPCall T "GET" url with
    | ⟨.returned resp, ev⟩ =>
      match Decode resp.body storageResponse with
      | none => ⟨.fatal, ev⟩
      | some respData => ⟨.returned (respData.field "data"), ev ++ [.closeBody]⟩
    | ⟨.fatal, ev⟩ => ⟨.fatal, ev⟩
    | ⟨.panicked, ev⟩ => ⟨.panicked, ev⟩

/-! ## Stub transports and bodies used in concrete checks -/

/-- Split a URL at the first `://`: the scheme with the separator, and the rest. -/
def splitScheme : List Char → Option (List Char × List Char)
  | [] => none
  | c :: cs =>
    match c, cs with
    | ':', '/' :: '/' :: rest => some ([':', '/', '/'], rest)
    | _, _ =>
      match splitScheme cs with
      | some (p, r) => some (c :: p, r)
      | none => none

/-- Whether a character ends the authority of a URL. -/
def endsAuthority (c : Char) : Bool :=
  c == '/' || c == '?' || c == '#'

/-- How `http.NewRequest` renders the URL strings of the checks below: an empty
port is dropped from the authority (`removeEmptyPort` of `net/http`), the rest
of the string is kept. -/
def removeEmptyPort (url : String) : String :=
  match splitScheme url.toList with
  | none => url
  | some (scheme, rest) =>
    let authority := rest.takeWhile (fun c => !endsAuthority c)
    let tail := rest.dropWhile (fun c => !endsAuthority c)
    if authority.getLast? = some ':' then ⟨scheme ++ authority.dropLast ++ tail⟩
    else url

/-- A server that answers every request with status 200 and the given body. -/
def stubServer (body : Option JSON) : Transport :=
  ⟨fun _ _ => true, removeEmptyPort, fun _ => some ⟨200, body⟩⟩

/-- A host that refuses every connection. -/
def refusingHost : Transport :=
  ⟨fun _ _ => true, removeEmptyPort, fun _ => none⟩

/-- A process that has not connected yet: every connection variable is zero. -/
def freshMem : Mem :=
  ⟨⟨"", ""⟩, fun _ => ⟨"", ""⟩⟩

/-- A process connected to `nas.local:5000` with session id `abc123`. -/
def connectedMem : Mem :=
  ⟨⟨"http://nas.local:5000", "abc123"⟩, fun _ => ⟨"", ""⟩⟩

/-! ## Vocabulary of the statements -/

/-- The transport answers the GET request for `url` with `resp`: the request
can be built and `client.Do` returns the response. -/
def Delivers (T : Transport) (url : String) (resp : Response) : Prop :=
  ∃ req, NewRequest T "GET" url = some req ∧ T.roundTrip req = some resp

/-- The URL `getSIDToken` requests. -/
def loginURL (origin account password : String) : String :=
  origin ++ "/webapi/auth.cgi?api=SYNO.API.Auth&version=6&method=login&account=" ++ account
    ++ "&passwd=" ++ password ++ "&session=Core&format=cookie"

/-- The URL `GetSystemInfo` requests. -/
def systemInfoURL (c : SynologyConnection) : String :=
  c.origin ++ "/webapi/entry.cgi?api=SYNO.Core.System.Utilization&version=1&method=get&_sid="
    ++ c.token

/-- The URL `GetShareInfo` requests. -/
def shareInfoURL (c : SynologyConnection) : String :=
  c.origin
    ++ "/webapi/entry.cgi?api=SYNO.Core.Share&shareType=all&additional=%5B%22share_quota%22%5D&method=list&version=1&_sid="
    ++ c.token

/-- The URL `GetStorageInfo` requests. -/
def storageInfoURL (c : SynologyConnection) : String :=
  c.origin ++ "/webapi/entry.cgi?api=SYNO.Storage.CGI.Storage&version=1&method=load_info&_sid="
    ++ c.token

/-- The steps the four operations share once the URL is built: the request,
the deferred close, the decoding into a fresh variable of type `t`, and the
selection `sel` of the result. -/
def fetch {α : Type} (T : Transport) (url : String) (t : GoType) (sel : GoValue → α) : Run α :=
  match NewRequest T "GET" url with
  | none => ⟨.fatal, []⟩
  | some req =>
    match T.roundTrip req with
    | none => ⟨.fatal, [.request req.method req.url]⟩
    | some resp =>
      match Decode resp.body t with
      | none => ⟨.fatal, [.request req.method req.url]⟩
      | some respData => ⟨.returned (sel respData), [.request req.method req.url, .closeBody]⟩

/-- Cause (a): the request cannot be constructed from the method and the URL. -/
def RequestNotConstructed (T : Transport) (url : String) : Prop :=
  NewRequest T "GET" url = none

/-- Cause (b): the transport fails to deliver a response. -/
def NoResponse (T : Transport) (url : String) : Prop :=
  ∃ req, NewRequest T "GET" url = some req ∧ T.roundTrip req = none

/-- Cause (c): the body of the response fails to decode into the type `t`. -/
def BodyNotDecoded (T : Transport) (url : String) (t : GoType) : Prop :=
  ∃ req resp, NewRequest T "GET" url = some req ∧ T.roundTrip req = some resp ∧
    Decode resp.body t = none

/-- A well-formed auth envelope. -/
def authEnvelope (sid : String) (isPortalPort success : Bool) : JSON :=
  .obj [("data", .obj [("sid", .str sid), ("is_portal_port", .bool isPortalPort)]),
    ("success", .bool success)]

/-- The body `j` is a well-formed auth envelope whose `data.sid` is `s`: an
object with the members `data` and `success`, in either order, where `data`
is an object with the members `sid` and `is_portal_port`, in either order. -/
def IsAuthEnvelope (j : JSON) (s : String) : Prop :=
  ∃ ms ds p b, j = .obj ms ∧ List.Perm ms [("data", .obj ds), ("success", .bool b)] ∧
    List.Perm ds [("sid", .str s), ("is_portal_port", .bool p)]

/-- The envelope `{"success": false, "data": {}}`. -/
def failureEnvelope : JSON :=
  .obj [("success", .bool false), ("data", .obj [])]

/-- A process whose stored session id holds a line break. -/
def lineBreakMem : Mem :=
  ⟨⟨"http://nas.local:5000", "abc\n123"⟩, fun _ => ⟨"", ""⟩⟩

/-- A process connected through `NewConnection("nas.local", "", ...)`: the
stored origin ends in an empty port. -/
def emptyPortMem : Mem :=
  ⟨⟨"http://nas.local:", "abc123"⟩, fun _ => ⟨"", ""⟩⟩

/-- The transport `T` with the body of every response replaced by `body`. -/
def Transport.withBody (T : Transport) (body : Option JSON) : Transport :=
  ⟨T.accepts, T.render, fun req => (T.roundTrip req).map (fun r => ⟨r.status, body⟩)⟩

/-- One share record of a share listing, as the JSON text states it: the
strings and the boolean as values, the two quotas as number tokens. -/
structure ShareRecord where
  name : String
  desc : String
  quota_value : Number
  share_quota_used : Number
  uuid : String
  vol_path : String
  is_usb_share : Bool

/-- The JSON object that states a share record. -/
def ShareRecord.toJSON (r : ShareRecord) : JSON :=
  .obj [("name", .str r.name), ("desc", .str r.desc), ("quota_value", .num r.quota_value),
    ("share_quota_used", .num r.share_quota_used), ("uuid", .str r.uuid),
    ("vol_path", .str r.vol_path), ("is_usb_share", .bool r.is_usb_share)]

/-- The element of `SharedFolderData.Shares` whose fields hold the values of a
share record. -/
def ShareRecord.toGo (r : ShareRecord) : GoValue :=
  .struct [("desc", .str r.desc), ("is_usb_share", .bool r.is_usb_share), ("name", .str r.name),
    ("quota_value", .float r.quota_value), ("share_quota_used", .float r.share_quota_used),
    ("uuid", .str r.uuid), ("vol_path", .str r.vol_path)]

/-- The envelope `{"data":{"shares":[...],"total":total},"success":b}`. -/
def shareEnvelope (rs : List ShareRecord) (total : Int) (success : Bool) : JSON :=
  .obj [("data", .obj [("shares", .arr (rs.map ShareRecord.toJSON)), ("total", .num (.int total))]),
    ("success", .bool success)]

/-- The share-list body of the scenario in the specification. -/
def homesBody : JSON :=
  .obj [("data", .obj [("shares", .arr [.obj [("name", .str "homes"), ("uuid", .str "u1"),
      ("quota_value", .num (.dec 1000 (-1))), ("share_quota_used", .num (.dec 425 (-1))),
      ("is_usb_share", .bool false), ("vol_path", .str "/volume1")]]),
    ("total", .num (.int 1))]), ("success", .bool true)]

/-! ## Edits of a response body -/

/-- One step down into a decoded value: into the field of a struct, or into
an element of a slice. -/
inductive Step where
  | field (tag : String)
  | elem (i : Nat)
  deriving DecidableEq, Repr

/-- The type of the field `tag` of a struct with fields `fs`. -/
def fieldType (fs : List (String × GoType)) (tag : String) : GoType :=
  match fs.find? (fun f => f.1 == tag) with
  | some f => f.2
  | none => .iface

/-- The value `v` of type `t` with the part at the end of the path set back to
its zero value, everything else kept. -/
def resetAt : List Step → GoType → GoValue → GoValue
  | [], t, _ => zero t
  | .field tag :: p, .struct fs, .struct vs =>
    .struct (setField vs tag (resetAt p (fieldType fs tag) (getField vs tag .nil)))
  | .elem i :: p, .slice et, .slice xs spare =>
    .slice (xs.set i (resetAt p et (xs.getD i .nil))) spare
  | _ :: _, _, v => v

/-- No member of `ms` is decoded into the field `tag` of a struct with fields `fs`. -/
def Untouched (fs : List (String × GoType)) (tag : String) (ms : List (String × JSON)) : Prop :=
  ∀ kv ∈ ms, ∀ f, findField fs kv.1 = some f → f.1 ≠ tag

/-- Relation `AddsKey t j j'`: the body `j'` is the body `j`, read at type `t`, with one
member added to one of its objects, under a key that matches no field of the
struct the object is decoded into, not even up to case.  The object is the
body itself (`here`), lies in a field (`field`) or in an element of a slice
(`elem`), or lies anywhere inside the value of a key that matches no field
(`skipped`, which allows any change of that value).  Objects under an
`interface{}` are left out. -/
inductive AddsKey : GoType → JSON → JSON → Prop where
  | here (fs : List (String × GoType)) (pre post : List (String × JSON)) (k : String) (v : JSON) :
    findField fs k = none →
    AddsKey (.struct fs) (.obj (pre ++ post)) (.obj (pre ++ (k, v) :: post))
  | skipped (fs : List (String × GoType)) (pre post : List (String × JSON)) (k : String)
      (v v' : JSON) :
    findField fs k = none →
    AddsKey (.struct fs) (.obj (pre ++ (k, v) :: post)) (.obj (pre ++ (k, v') :: post))
  | field (fs : List (String × GoType)) (pre post : List (String × JSON)) (k : String)
      (v v' : JSON) (tag : String) (ft : GoType) :
    findField fs k = some (tag, ft) → AddsKey ft v v' →
    AddsKey (.struct fs) (.obj (pre ++ (k, v) :: post)) (.obj (pre ++ (k, v') :: post))
  | elem (et : GoType) (pre post : List JSON) (x x' : JSON) :
    AddsKey et x x' →
    AddsKey (.slice et) (.arr (pre ++ x :: post)) (.arr (pre ++ x' :: post))

/-- Relation `RemovesKey p t j j'`: the body `j'` is the body `j`, read at type `t`, with
one member removed from one of its objects; the member is decoded into the
field at the end of the path `p`.  In the object that loses the member, and in
every object on the way down to it, no other member is decoded into the same
field as the member removed or entered. -/
inductive RemovesKey : List Step → GoType → JSON → JSON → Prop where
  | here (fs : List (String × GoType)) (pre post : List (String × JSON)) (k : String) (v : JSON)
      (tag : String) (ft : GoType) :
    findField fs k = some (tag, ft) → Untouched fs tag (pre ++ post) →
    RemovesKey [.field tag] (.struct fs) (.obj (pre ++ (k, v) :: post)) (.obj (pre ++ post))
  | field (fs : List (String × GoType)) (pre post : List (String × JSON)) (k : String)
      (v v' : JSON) (tag : String) (ft : GoType) (p : List Step) :
    findField fs k = some (tag, ft) → Untouched fs tag (pre ++ post) → RemovesKey p ft v v' →
    RemovesKey (.field tag :: p) (.struct fs) (.obj (pre ++ (k, v) :: post))
      (.obj (pre ++ (k, v') :: post))
  | elem (et : GoType) (pre post : List JSON) (x x' : JSON) (p : List Step) :
    RemovesKey p et x x' →
    RemovesKey (.elem pre.length :: p) (.slice et) (.arr (pre ++ x :: post))
      (.arr (pre ++ x' :: post))

/-- A login body without `is_portal_port`. -/
def sidBody : JSON :=
  .obj [("data", .obj [("sid", .str "abc123")]), ("success", .bool true)]

/-- The body `sidBody` with the key `SID` added to the object under `data`. -/
def sidUpperBody : JSON :=
  .obj [("data", .obj [("sid", .str "abc123"), ("SID", .num (.int 1))]), ("success", .bool true)]

/-- The body `sidBody` with the key `trace` added to the object under `data`. -/
def sidTraceBody : JSON :=
  .obj [("data", .obj [("sid", .str "abc123"), ("trace", .arr [.num (.int 1), .null])]),
    ("success", .bool true)]

/-- The body `sidBody` with the key `sid` removed from the object under `data`. -/
def noSidBody : JSON :=
  .obj [("data", .obj []), ("success", .bool true)]

/-- A login body that states `sid` twice. -/
def twoSidBody : JSON :=
  .obj [("data", .obj [("sid", .str "first"), ("sid", .str "second")]), ("success", .bool true)]

/-- The body `twoSidBody` with the second `sid` removed. -/
def firstSidBody : JSON :=
  .obj [("data", .obj [("sid", .str "first")]), ("success", .bool true)]

/-- A storage body with one hot spare, an empty object. -/
def hotSpareBody : JSON :=
  .obj [("data", .obj [("hotSpares", .arr [.obj []])]), ("success", .bool true)]

/-- The body `hotSpareBody` with the key `id` added to the hot spare. -/
def hotSpareIdBody : JSON :=
  .obj [("data", .obj [("hotSpares", .arr [.obj [("id", .str "sda")]])]), ("success", .bool true)]

/-! # Theorems -/

/-! ## Shared lemmas -/

theorem newRequest_eq_some {T : Transport} {url : String} {req : Request}
    (h : NewRequest T "GET" url = some req) : req = ⟨"GET", T.render url⟩ := by
  unfold NewRequest at h
  split at h
  · simp at h
  · split at h
    · simpa using h.symm
    · simp at h

theorem getSIDToken_eq_fetch (T : Transport) (m : Mem) (account password : String) :
    getSIDToken T m account password
      = fetch T (loginURL m.sconn.origin account password) authResponse
          (fun d => ((d.field "data").field "sid").asString) := by
  have hu : m.sconn.origin ++ "/webapi/auth.cgi?api=SYNO.API.Auth&version=" ++ "6"
      ++ "&method=login&account=" ++ account ++ "&passwd=" ++ password
      ++ "&session=Core&format=cookie" = loginURL m.sconn.origin account password := by
    unfold loginURL
    simp only [String.append_assoc]
    rfl
  unfold getSIDToken performHTTPCall fetch
  simp only [hu]
  rcases h1 : NewRequest T "GET" (loginURL m.sconn.origin account password) with _ | req
  · simp
  · rcases h2 : T.roundTrip req with _ | resp
    · simp [h2]
    · rcases h3 : Decode resp.body authResponse with _ | d <;> simp [h2, h3]

theorem getSystemInfo_eq_fetch (T : Transport) (m : Mem) (conn : Ptr) (c : SynologyConnection)
    (hc : m.load conn = some c) :
    GetSystemInfo T m conn
      = fetch T (systemInfoURL c) systemUtilizationResponse (fun d => d.field "data") := by
  have hu : c.origin ++ "/webapi/entry.cgi?api=SYNO.Core.System.Utilization&version=" ++ "1"
      ++ "&method=get&_sid=" ++ c.token = systemInfoURL c := by
    unfold systemInfoURL
    simp only [String.append_assoc]
    rfl
  unfold GetSystemInfo performHTTPCall fetch
  simp only [hc, hu]
  rcases h1 : NewRequest T "GET" (systemInfoURL c) with _ | req
  · simp
  · rcases h2 : T.roundTrip req with _ | resp
    · simp [h2]
    · rcases h3 : Decode resp.body systemUtilizationResponse with _ | d <;> simp [h2, h3]

theorem getShareInfo_eq_fetch (T : Transport) (m : Mem) (conn : Ptr) (c : SynologyConnection)
    (hc : m.load conn = some c) :
    GetShareInfo T m conn
      = fetch T (shareInfoURL c) sharedFolderReponse (fun d => d.field "data") := by
  have hu : c.origin
      ++ "/webapi/entry.cgi?api=SYNO.Core.Share&shareType=all&additional=%5B%22share_quota%22%5D&method=list&version="
      ++ "1" ++ "&_sid=" ++ c.token = shareInfoURL c := by
    unfold shareInfoURL
    simp only [String.append_assoc]
    rfl
  unfold GetShareInfo performHTTPCall fetch
  simp only [hc, hu]
  rcases h1 : NewRequest T "GET" (shareInfoURL c) with _ | req
  · simp
  · rcases h2 : T.roundTrip req with _ | resp
    · simp [h2]
    · rcases h3 : Decode resp.body sharedFolderReponse with _ | d <;> simp [h2, h3]

theorem getStorageInfo_eq_fetch (T : Transport) (m : Mem) (conn : Ptr) (c : SynologyConnection)
    (hc : m.load conn = some c) :
    GetStorageInfo T m conn
      = fetch T (storageInfoURL c) storageResponse (fun d => d.field "data") := by
  have hu : c.origin ++ "/webapi/entry.cgi?api=SYNO.Storage.CGI.Storage&version=" ++ "1"
      ++ "&method=load_info&_sid=" ++ c.token = storageInfoURL c := by
    unfold storageInfoURL
    simp only [String.append_assoc]
    rfl
  unfold GetStorageInfo performHTTPCall fetch
  simp only [hc, hu]
  rcases h1 : NewRequest T "GET" (storageInfoURL c) with _ | req
  · simp
  · rcases h2 : T.roundTrip req with _ | resp
    · simp [h2]
    · rcases h3 : Decode resp.body storageResponse with _ | d <;> simp [h2, h3]

theorem newConnection_eq (T : Transport) (m : Mem) (host port account password : String) :
    NewConnection T m host port account password
      = match fetch T (loginURL ("http://" ++ host ++ ":" ++ port) account password) authResponse
            (fun d => ((d.field "data").field "sid").asString) with
        | ⟨.returned tok, ev⟩ =>
          ⟨.returned (.sconn, ⟨⟨"http://" ++ host ++ ":" ++ port, tok⟩, m.heap⟩), ev⟩
        | ⟨.fatal, ev⟩ => ⟨.fatal, ev⟩
        | ⟨.panicked, ev⟩ => ⟨.panicked, ev⟩ := by
  unfold NewConnection
  simp only [getSIDToken_eq_fetch]

theorem fetch_of_delivers {α : Type} {T : Transport} {url : String} {resp : Response}
    (h : Delivers T url resp) (t : GoType) (sel : GoValue → α) :
    fetch T url t sel
      = match Decode resp.body t with
        | none => ⟨.fatal, [.request "GET" (T.render url)]⟩
        | some d => ⟨.returned (sel d), [.request "GET" (T.render url), .closeBody]⟩ := by
  obtain ⟨req, h1, h2⟩ := h
  have hr := newRequest_eq_some h1
  subst hr
  unfold fetch
  simp only [h1, h2]

theorem fetch_fatal_iff {α : Type} (T : Transport) (url : String) (t : GoType)
    (sel : GoValue → α) :
    (fetch T url t sel).outcome = .fatal
      ↔ RequestNotConstructed T url ∨ NoResponse T url ∨ BodyNotDecoded T url t := by
  unfold fetch RequestNotConstructed NoResponse BodyNotDecoded
  rcases h1 : NewRequest T "GET" url with _ | req
  · simp
  · rcases h2 : T.roundTrip req with _ | resp
    · simp [h2]
    · rcases h3 : Decode resp.body t with _ | d <;> simp [h2, h3]

theorem fetch_returned_or_fatal {α : Type} (T : Transport) (url : String) (t : GoType)
    (sel : GoValue → α) :
    (fetch T url t sel).outcome = .fatal ∨ ∃ a, (fetch T url t sel).outcome = .returned a := by
  unfold fetch
  rcases h1 : NewRequest T "GET" url with _ | req
  · simp
  · rcases h2 : T.roundTrip req with _ | resp
    · simp [h2]
    · rcases h3 : Decode resp.body t with _ | d <;> simp [h2, h3]

theorem fetch_requests {α : Type} (T : Transport) (url : String) (t : GoType)
    (sel : GoValue → α) :
    requests (fetch T url t sel).events
      = if (NewRequest T "GET" url).isSome then [("GET", T.render url)] else [] := by
  unfold fetch
  rcases h1 : NewRequest T "GET" url with _ | req
  · simp [requests]
  · have hr := newRequest_eq_some h1
    subst hr
    rcases h2 : T.roundTrip ⟨"GET", T.render url⟩ with _ | resp
    · simp [h2, requests]
    · rcases h3 : Decode resp.body t with _ | d <;> simp [h2, h3, requests]

theorem fetch_not_constructed {α : Type} (T : Transport) (url : String) (t : GoType)
    (sel : GoValue → α) (h : NewRequest T "GET" url = none) :
    fetch T url t sel = ⟨.fatal, []⟩ := by
  unfold fetch
  simp only [h]

/-! ## C1: the connection returned by `NewConnection` -/

theorem perm_pair {α : Type} {l : List α} {a b : α} (h : List.Perm l [a, b]) :
    l = [a, b] ∨ l = [b, a] := by
  obtain ⟨x, y, rfl⟩ := List.length_eq_two.mp h.length_eq
  have ha : a ∈ [x, y] := h.mem_iff.mpr (List.mem_cons_self a [b])
  simp only [List.mem_cons, List.mem_singleton, List.not_mem_nil, or_false] at ha
  rcases ha with rfl | rfl
  · have := List.perm_singleton.mp h.cons_inv
    simp only [List.cons.injEq, and_true] at this
    subst this
    exact Or.inl rfl
  · have h2 : List.Perm [a, x] [a, b] := (List.Perm.swap x a []).trans h
    have := List.perm_singleton.mp h2.cons_inv
    simp only [List.cons.injEq, and_true] at this
    subst this
    exact Or.inr rfl

theorem decode_isAuthEnvelope {j : JSON} {s : String} (h : IsAuthEnvelope j s) :
    ∃ p b, Decode (some j) authResponse
      = some (.struct [("data", .struct [("is_portal_port", .bool p), ("sid", .str s)]),
          ("success", .bool b)]) := by
  obtain ⟨ms, ds, p, b, rfl, hms, hds⟩ := h
  refine ⟨p, b, ?_⟩
  rcases perm_pair hms with rfl | rfl <;> rcases perm_pair hds with rfl | rfl <;> rfl

/-- C1: whenever the transport answers the login request of
`NewConnection(host, port, account, password)` with a well-formed auth envelope
whose `data.sid` is `s`, the call returns `&sconn`, and the connection it
points to has origin `"http://" ++ host ++ ":" ++ port` and token `s`. -/
theorem newConnection_returns_origin_and_sid (T : Transport) (m : Mem)
    (host port account password s : String) (j : JSON) (status : Nat)
    (hj : IsAuthEnvelope j s)
    (h : Delivers T (loginURL ("http://" ++ host ++ ":" ++ port) account password)
      ⟨status, some j⟩) :
    ∃ m', (NewConnection T m host port account password).outcome = .returned (.sconn, m') ∧
      m'.load .sconn = some ⟨"http://" ++ host ++ ":" ++ port, s⟩ := by
  obtain ⟨p, b, hd⟩ := decode_isAuthEnvelope hj
  rw [newConnection_eq, fetch_of_delivers h]
  simp only [hd]
  exact ⟨_, rfl, rfl⟩

/-- C1, the scenario of the specification: the login stub returns sid `abc123`
to `NewConnection("nas.local", "5000", "admin", "pw")`. -/
theorem newConnection_returns_origin_and_sid_witness :
    IsAuthEnvelope (authEnvelope "abc123" false true) "abc123" ∧
      Delivers (stubServer (some (authEnvelope "abc123" false true)))
        (loginURL ("http://" ++ "nas.local" ++ ":" ++ "5000") "admin" "pw")
        ⟨200, some (authEnvelope "abc123" false true)⟩ ∧
      ∃ m', (NewConnection (stubServer (some (authEnvelope "abc123" false true))) freshMem
          "nas.local" "5000" "admin" "pw").outcome = .returned (.sconn, m') ∧
        m'.load .sconn = some ⟨"http://nas.local:5000", "abc123"⟩ :=
  ⟨⟨_, _, false, true, rfl, List.Perm.refl _, List.Perm.refl _⟩, ⟨_, rfl, rfl⟩,
    newConnection_returns_origin_and_sid (stubServer (some (authEnvelope "abc123" false true)))
      freshMem "nas.local" "5000" "admin" "pw" "abc123" (authEnvelope "abc123" false true) 200
      ⟨_, _, false, true, rfl, List.Perm.refl _, List.Perm.refl _⟩ ⟨_, rfl, rfl⟩⟩

/-! ## C2: the requests of the query operations -/

/-- C2 as stated fails in two ways.  With a stored session id that holds a line
break, `http.NewRequest` rejects the URL and `GetSystemInfo` issues no request.
With a stored origin that ends in an empty port, the request that
`http.NewRequest` builds has the URL without the colon, which is not the
string `origin ++ ...`. -/
theorem getSystemInfo_request_counterexample :
    requests (GetSystemInfo (stubServer (some failureEnvelope)) lineBreakMem .sconn).events = [] ∧
      requests (GetSystemInfo (stubServer (some failureEnvelope)) lineBreakMem .sconn).events
        ≠ [("GET", "http://nas.local:5000/webapi/entry.cgi?api=SYNO.Core.System.Utilization&version=1&method=get&_sid=abc\n123")] ∧
      requests (GetSystemInfo (stubServer (some failureEnvelope)) emptyPortMem .sconn).events
        = [("GET", "http://nas.local/webapi/entry.cgi?api=SYNO.Core.System.Utilization&version=1&method=get&_sid=abc123")] ∧
      requests (GetSystemInfo (stubServer (some failureEnvelope)) emptyPortMem .sconn).events
        ≠ [("GET", "http://nas.local:/webapi/entry.cgi?api=SYNO.Core.System.Utilization&version=1&method=get&_sid=abc123")] := by
  decide

/-- C2, amended: for every connection `(origin, token)` each query operation
hands the method GET and the URL string of its endpoint, with origin and token
unchanged in it, to `http.NewRequest`.  When `http.NewRequest` constructs a
request from them, the operation calls `client.Do` exactly once, with that
request: its method is GET and its URL is the string as the library renders
it.  When it does not, the operation calls `client.Do` not at all and the
process ends in `log.Fatal`. -/
theorem query_requests (T : Transport) (m : Mem) (conn : Ptr) (c : SynologyConnection)
    (u₁ u₂ u₃ : String) (hc : m.load conn = some c)
    (h₁ : u₁ = c.origin ++ "/webapi/entry.cgi?api=SYNO.Core.System.Utilization&version=1&method=get&_sid=" ++ c.token)
    (h₂ : u₂ = c.origin ++ "/webapi/entry.cgi?api=SYNO.Storage.CGI.Storage&version=1&method=load_info&_sid=" ++ c.token)
    (h₃ : u₃ = c.origin ++ "/webapi/entry.cgi?api=SYNO.Core.Share&shareType=all&additional=%5B%22share_quota%22%5D&method=list&version=1&_sid=" ++ c.token) :
    (((NewRequest T "GET" u₁).isSome = true →
          requests (GetSystemInfo T m conn).events = [("GET", T.render u₁)]) ∧
        (NewRequest T "GET" u₁ = none →
          requests (GetSystemInfo T m conn).events = [] ∧
            (GetSystemInfo T m conn).outcome = .fatal)) ∧
      (((NewRequest T "GET" u₂).isSome = true →
          requests (GetStorageInfo T m conn).events = [("GET", T.render u₂)]) ∧
        (NewRequest T "GET" u₂ = none →
          requests (GetStorageInfo T m conn).events = [] ∧
            (GetStorageInfo T m conn).outcome = .fatal)) ∧
      (((NewRequest T "GET" u₃).isSome = true →
          requests (GetShareInfo T m conn).events = [("GET", T.render u₃)]) ∧
        (NewRequest T "GET" u₃ = none →
          requests (GetShareInfo T m conn).events = [] ∧
            (GetShareInfo T m conn).outcome = .fatal)) := by
  have e₁ : u₁ = systemInfoURL c := h₁
  have e₂ : u₂ = storageInfoURL c := h₂
  have e₃ : u₃ = shareInfoURL c := h₃
  subst e₁ e₂ e₃
  rw [getSystemInfo_eq_fetch T m conn c hc, getStorageInfo_eq_fetch T m conn c hc,
    getShareInfo_eq_fetch T m conn c hc]
  refine ⟨⟨?_, ?_⟩, ⟨?_, ?_⟩, ⟨?_, ?_⟩⟩
  · intro h; rw [fetch_requests, if_pos h]
  · intro h; rw [fetch_not_constructed _ _ _ _ h]; exact ⟨rfl, rfl⟩
  · intro h; rw [fetch_requests, if_pos h]
  · intro h; rw [fetch_not_constructed _ _ _ _ h]; exact ⟨rfl, rfl⟩
  · intro h; rw [fetch_requests, if_pos h]
  · intro h; rw [fetch_not_constructed _ _ _ _ h]; exact ⟨rfl, rfl⟩

/-- C2, amended, at the connection `(http://nas.local:5000, abc123)`: each
query operation calls `client.Do` once, with the URL of its endpoint. -/
theorem query_requests_witness :
    connectedMem.load .sconn = some ⟨"http://nas.local:5000", "abc123"⟩ ∧
      (NewRequest (stubServer (some failureEnvelope)) "GET"
        ("http://nas.local:5000" ++ "/webapi/entry.cgi?api=SYNO.Core.System.Utilization&version=1&method=get&_sid=" ++ "abc123")).isSome = true ∧
      (NewRequest (stubServer (some failureEnvelope)) "GET"
        ("http://nas.local:5000" ++ "/webapi/entry.cgi?api=SYNO.Storage.CGI.Storage&version=1&method=load_info&_sid=" ++ "abc123")).isSome = true ∧
      (NewRequest (stubServer (some failureEnvelope)) "GET"
        ("http://nas.local:5000" ++ "/webapi/entry.cgi?api=SYNO.Core.Share&shareType=all&additional=%5B%22share_quota%22%5D&method=list&version=1&_sid=" ++ "abc123")).isSome = true ∧
      requests (GetSystemInfo (stubServer (some failureEnvelope)) connectedMem .sconn).events
        = [("GET", "http://nas.local:5000/webapi/entry.cgi?api=SYNO.Core.System.Utilization&version=1&method=get&_sid=abc123")] ∧
      requests (GetStorageInfo (stubServer (some failureEnvelope)) connectedMem .sconn).events
        = [("GET", "http://nas.local:5000/webapi/entry.cgi?api=SYNO.Storage.CGI.Storage&version=1&method=load_info&_sid=abc123")] ∧
      requests (GetShareInfo (stubServer (some failureEnvelope)) connectedMem .sconn).events
        = [("GET", "http://nas.local:5000/webapi/entry.cgi?api=SYNO.Core.Share&shareType=all&additional=%5B%22share_quota%22%5D&method=list&version=1&_sid=abc123")] :=
  ⟨rfl, by decide, by decide, by decide,
    (query_requests (stubServer (some failureEnvelope)) connectedMem .sconn
      ⟨"http://nas.local:5000", "abc123"⟩ _ _ _ rfl rfl rfl rfl).1.1 (by decide),
    (query_requests (stubServer (some failureEnvelope)) connectedMem .sconn
      ⟨"http://nas.local:5000", "abc123"⟩ _ _ _ rfl rfl rfl rfl).2.1.1 (by decide),
    (query_requests (stubServer (some failureEnvelope)) connectedMem .sconn
      ⟨"http://nas.local:5000", "abc123"⟩ _ _ _ rfl rfl rfl rfl).2.2.1 (by decide)⟩

/-! ## C3: the request of `NewConnection` -/

/-- C3 as stated fails in two ways.  With a host name that ends in a line
break, `http.NewRequest` rejects the URL and `NewConnection` issues no request.
With an empty port, the request that `http.NewRequest` builds has the URL
without the colon after the host, which is not the string
`"http://" ++ host ++ ":" ++ port ++ ...`. -/
theorem newConnection_request_counterexample :
    requests (NewConnection (stubServer (some (authEnvelope "abc123" false true))) freshMem
        "nas.local\n" "5000" "admin" "pw").events = [] ∧
      requests (NewConnection (stubServer (some (authEnvelope "abc123" false true))) freshMem
        "nas.local\n" "5000" "admin" "pw").events
        ≠ [("GET", "http://nas.local\n:5000/webapi/auth.cgi?api=SYNO.API.Auth&version=6&method=login&account=admin&passwd=pw&session=Core&format=cookie")] ∧
      requests (NewConnection (stubServer (some (authEnvelope "abc123" false true))) freshMem
        "nas.local" "" "admin" "pw").events
        = [("GET", "http://nas.local/webapi/auth.cgi?api=SYNO.API.Auth&version=6&method=login&account=admin&passwd=pw&session=Core&format=cookie")] ∧
      requests (NewConnection (stubServer (some (authEnvelope "abc123" false true))) freshMem
        "nas.local" "" "admin" "pw").events
        ≠ [("GET", "http://nas.local:/webapi/auth.cgi?api=SYNO.API.Auth&version=6&method=login&account=admin&passwd=pw&session=Core&format=cookie")] := by
  decide

theorem newConnection_events (T : Transport) (m : Mem) (host port account password : String) :
    (NewConnection T m host port account password).events
      = (fetch T (loginURL ("http://" ++ host ++ ":" ++ port) account password) authResponse
          (fun d => ((d.field "data").field "sid").asString)).events := by
  rw [newConnection_eq]
  rcases fetch T (loginURL ("http://" ++ host ++ ":" ++ port) account password) authResponse
    (fun d => ((d.field "data").field "sid").asString) with ⟨o, ev⟩
  cases o <;> rfl

/-- C3, amended: whatever the package variable `sconn` held before,
`NewConnection(host, port, account, password)` hands the method GET and the
login URL string built on the origin of this call to `http.NewRequest`.  When
`http.NewRequest` constructs a request from them, the call calls `client.Do`
exactly once, with that request: its method is GET and its URL is the string
as the library renders it.  When it does not, the call calls `client.Do` not
at all and the process ends in `log.Fatal`. -/
theorem newConnection_requests (T : Transport) (m : Mem)
    (host port account password u : String)
    (hu : u = "http://" ++ host ++ ":" ++ port ++ "/webapi/auth.cgi?api=SYNO.API.Auth&version=6&method=login&account=" ++ account ++ "&passwd=" ++ password ++ "&session=Core&format=cookie") :
    ((NewRequest T "GET" u).isSome = true →
        requests (NewConnection T m host port account password).events
          = [("GET", T.render u)]) ∧
      (NewRequest T "GET" u = none →
        requests (NewConnection T m host port account password).events = [] ∧
          (NewConnection T m host port account password).outcome = .fatal) := by
  have e : u = loginURL ("http://" ++ host ++ ":" ++ port) account password := hu
  subst e
  constructor
  · intro h
    rw [newConnection_events, fetch_requests, if_pos h]
  · intro h
    rw [newConnection_eq, fetch_not_constructed _ _ _ _ h]
    exact ⟨rfl, rfl⟩

/-- C3, amended, at `NewConnection("nas.local", "5000", "admin", "pw")` from a
memory that holds another connection: `client.Do` is called once, with the
login URL of this call. -/
theorem newConnection_requests_witness :
    (NewRequest (stubServer (some (authEnvelope "abc123" false true))) "GET"
        ("http://" ++ "nas.local" ++ ":" ++ "5000" ++ "/webapi/auth.cgi?api=SYNO.API.Auth&version=6&method=login&account=" ++ "admin" ++ "&passwd=" ++ "pw" ++ "&session=Core&format=cookie")).isSome = true ∧
      requests (NewConnection (stubServer (some (authEnvelope "abc123" false true))) emptyPortMem
          "nas.local" "5000" "admin" "pw").events
        = [("GET", "http://nas.local:5000/webapi/auth.cgi?api=SYNO.API.Auth&version=6&method=login&account=admin&passwd=pw&session=Core&format=cookie")] :=
  ⟨by decide,
    (newConnection_requests (stubServer (some (authEnvelope "abc123" false true))) emptyPortMem
      "nas.local" "5000" "admin" "pw" _ rfl).1 (by decide)⟩

/-! ## C5: when the operations end the process -/

/-- C5 as stated fails: on the nil pointer `GetSystemInfo` neither returns nor
ends on one of the three causes; it panics on the dereference `conn.origin`,
while the transport would have answered the request of a connected process
with a body that decodes. -/
theorem getSystemInfo_nil_counterexample :
    (GetSystemInfo (stubServer (some failureEnvelope)) connectedMem .nil).outcome = .panicked ∧
      ¬ (RequestNotConstructed (stubServer (some failureEnvelope))
            (systemInfoURL connectedMem.sconn) ∨
          NoResponse (stubServer (some failureEnvelope)) (systemInfoURL connectedMem.sconn) ∨
          BodyNotDecoded (stubServer (some failureEnvelope)) (systemInfoURL connectedMem.sconn)
            systemUtilizationResponse) := by
  refine ⟨rfl, ?_⟩
  have h : NewRequest (stubServer (some failureEnvelope)) "GET"
      (systemInfoURL connectedMem.sconn) = some ⟨"GET", systemInfoURL connectedMem.sconn⟩ := by
    decide
  have hd : Decode (some failureEnvelope) systemUtilizationResponse
      = some (.struct [("data", zero SystemUtilizationData), ("success", .bool false)]) := rfl
  unfold RequestNotConstructed NoResponse BodyNotDecoded
  rw [h]
  simp [stubServer, hd]

theorem newConnection_outcome_fatal_iff (T : Transport) (m : Mem)
    (host port account password : String) :
    (NewConnection T m host port account password).outcome = .fatal
      ↔ (fetch T (loginURL ("http://" ++ host ++ ":" ++ port) account password) authResponse
          (fun d => ((d.field "data").field "sid").asString)).outcome = .fatal := by
  rw [newConnection_eq]
  rcases fetch T (loginURL ("http://" ++ host ++ ":" ++ port) account password) authResponse
    (fun d => ((d.field "data").field "sid").asString) with ⟨o, ev⟩
  cases o <;> simp

theorem newConnection_returned_or_fatal (T : Transport) (m : Mem)
    (host port account password : String) :
    (NewConnection T m host port account password).outcome = .fatal ∨
      ∃ r, (NewConnection T m host port account password).outcome = .returned r := by
  rw [newConnection_eq]
  rcases fetch_returned_or_fatal T (loginURL ("http://" ++ host ++ ":" ++ port) account password)
    authResponse (fun d => ((d.field "data").field "sid").asString) with h | ⟨a, h⟩
  · left
    revert h
    rcases fetch T (loginURL ("http://" ++ host ++ ":" ++ port) account password) authResponse
      (fun d => ((d.field "data").field "sid").asString) with ⟨o, ev⟩
    cases o <;> simp
  · right
    revert h
    rcases fetch T (loginURL ("http://" ++ host ++ ":" ++ port) account password) authResponse
      (fun d => ((d.field "data").field "sid").asString) with ⟨o, ev⟩
    cases o <;> simp

/-- C5, amended: `NewConnection`, and each of `GetSystemInfo`, `GetShareInfo`
and `GetStorageInfo` called with a non-nil connection pointer, ends the process
through `log.Fatal` if and only if (a) the request cannot be constructed from
the method and the URL, or (b) the transport delivers no response, or (c) the
body fails to decode into the envelope type of the endpoint; in every other
case the operation returns a value.  In particular a transport error never
ends in a returned value. -/
theorem fatal_iff_three_causes (T : Transport) (m : Mem)
    (host port account password : String) (conn : Ptr) (c : SynologyConnection)
    (hc : m.load conn = some c) :
    (((NewConnection T m host port account password).outcome = .fatal
          ↔ RequestNotConstructed T (loginURL ("http://" ++ host ++ ":" ++ port) account password) ∨
            NoResponse T (loginURL ("http://" ++ host ++ ":" ++ port) account password) ∨
            BodyNotDecoded T (loginURL ("http://" ++ host ++ ":" ++ port) account password)
              authResponse) ∧
        ((NewConnection T m host port account password).outcome = .fatal ∨
          ∃ r, (NewConnection T m host port account password).outcome = .returned r)) ∧
      (((GetSystemInfo T m conn).outcome = .fatal
          ↔ RequestNotConstructed T (systemInfoURL c) ∨ NoResponse T (systemInfoURL c) ∨
            BodyNotDecoded T (systemInfoURL c) systemUtilizationResponse) ∧
        ((GetSystemInfo T m conn).outcome = .fatal ∨
          ∃ r, (GetSystemInfo T m conn).outcome = .returned r)) ∧
      (((GetShareInfo T m conn).outcome = .fatal
          ↔ RequestNotConstructed T (shareInfoURL c) ∨ NoResponse T (shareInfoURL c) ∨
            BodyNotDecoded T (shareInfoURL c) sharedFolderReponse) ∧
        ((GetShareInfo T m conn).outcome = .fatal ∨
          ∃ r, (GetShareInfo T m conn).outcome = .returned r)) ∧
      (((GetStorageInfo T m conn).outcome = .fatal
          ↔ RequestNotConstructed T (storageInfoURL c) ∨ NoResponse T (storageInfoURL c) ∨
            BodyNotDecoded T (storageInfoURL c) storageResponse) ∧
        ((GetStorageInfo T m conn).outcome = .fatal ∨
          ∃ r, (GetStorageInfo T m conn).outcome = .returned r)) := by
  refine ⟨⟨?_, newConnection_returned_or_fatal T m host port account password⟩, ?_, ?_, ?_⟩
  · rw [newConnection_outcome_fatal_iff]
    exact fetch_fatal_iff _ _ _ _
  · rw [getSystemInfo_eq_fetch T m conn c hc]
    exact ⟨fetch_fatal_iff _ _ _ _, fetch_returned_or_fatal _ _ _ _⟩
  · rw [getShareInfo_eq_fetch T m conn c hc]
    exact ⟨fetch_fatal_iff _ _ _ _, fetch_returned_or_fatal _ _ _ _⟩
  · rw [getStorageInfo_eq_fetch T m conn c hc]
    exact ⟨fetch_fatal_iff _ _ _ _, fetch_returned_or_fatal _ _ _ _⟩

/-- C5, amended, at a host that refuses the connection: `GetStorageInfo` ends
the process and returns nothing. -/
theorem fatal_iff_three_causes_witness :
    connectedMem.load .sconn = some connectedMem.sconn ∧
      (GetStorageInfo refusingHost connectedMem .sconn).outcome = .fatal :=
  ⟨rfl, (fatal_iff_three_causes refusingHost connectedMem "nas.local" "5000" "admin" "pw"
    .sconn connectedMem.sconn rfl).2.2.2.1.mpr (Or.inr (Or.inl ⟨⟨"GET", storageInfoURL connectedMem.sconn⟩, by decide, rfl⟩))⟩

/-! ## C7: the envelope `{"success": false, "data": {}}` -/

theorem decode_failureEnvelope_auth :
    Decode (some failureEnvelope) authResponse
      = some (.struct [("data", zero authResponseData), ("success", .bool false)]) := rfl

theorem decode_failureEnvelope_system :
    Decode (some failureEnvelope) systemUtilizationResponse
      = some (.struct [("data", zero SystemUtilizationData), ("success", .bool false)]) := rfl

theorem decode_failureEnvelope_share :
    Decode (some failureEnvelope) sharedFolderReponse
      = some (.struct [("data", zero SharedFolderData), ("success", .bool false)]) := rfl

theorem decode_failureEnvelope_storage :
    Decode (some failureEnvelope) storageResponse
      = some (.struct [("data", zero StorageData), ("success", .bool false)]) := rfl

/-- C7: when the transport answers with the body `{"success": false, "data": {}}`,
no operation ends the process: `NewConnection` returns the connection with the
empty token, and `GetSystemInfo`, `GetShareInfo` and `GetStorageInfo`, called
with a non-nil connection pointer, return the zero value of their result type. -/
theorem failure_envelope_returns_zero (T : Transport) (m : Mem)
    (host port account password : String) (conn : Ptr) (c : SynologyConnection)
    (s0 s1 s2 s3 : Nat) (hc : m.load conn = some c)
    (h0 : Delivers T (loginURL ("http://" ++ host ++ ":" ++ port) account password)
      ⟨s0, some failureEnvelope⟩)
    (h1 : Delivers T (systemInfoURL c) ⟨s1, some failureEnvelope⟩)
    (h2 : Delivers T (shareInfoURL c) ⟨s2, some failureEnvelope⟩)
    (h3 : Delivers T (storageInfoURL c) ⟨s3, some failureEnvelope⟩) :
    (∃ m', (NewConnection T m host port account password).outcome = .returned (.sconn, m') ∧
        m'.load .sconn = some ⟨"http://" ++ host ++ ":" ++ port, ""⟩) ∧
      (GetSystemInfo T m conn).outcome = .returned (zero SystemUtilizationData) ∧
      (GetShareInfo T m conn).outcome = .returned (zero SharedFolderData) ∧
      (GetStorageInfo T m conn).outcome = .returned (zero StorageData) := by
  refine ⟨?_, ?_, ?_, ?_⟩
  · rw [newConnection_eq, fetch_of_delivers h0]
    simp only [decode_failureEnvelope_auth]
    exact ⟨_, rfl, rfl⟩
  · rw [getSystemInfo_eq_fetch T m conn c hc, fetch_of_delivers h1]
    simp only [decode_failureEnvelope_system]
    rfl
  · rw [getShareInfo_eq_fetch T m conn c hc, fetch_of_delivers h2]
    simp only [decode_failureEnvelope_share]
    rfl
  · rw [getStorageInfo_eq_fetch T m conn c hc, fetch_of_delivers h3]
    simp only [decode_failureEnvelope_storage]
    rfl

/-- C7 at a server that answers every request with `{"success": false, "data": {}}`. -/
theorem failure_envelope_returns_zero_witness :
    connectedMem.load .sconn = some connectedMem.sconn ∧
      Delivers (stubServer (some failureEnvelope))
        (loginURL ("http://" ++ "nas.local" ++ ":" ++ "5000") "admin" "pw")
        ⟨200, some failureEnvelope⟩ ∧
      Delivers (stubServer (some failureEnvelope)) (systemInfoURL connectedMem.sconn)
        ⟨200, some failureEnvelope⟩ ∧
      Delivers (stubServer (some failureEnvelope)) (shareInfoURL connectedMem.sconn)
        ⟨200, some failureEnvelope⟩ ∧
      Delivers (stubServer (some failureEnvelope)) (storageInfoURL connectedMem.sconn)
        ⟨200, some failureEnvelope⟩ ∧
      (GetShareInfo (stubServer (some failureEnvelope)) connectedMem .sconn).outcome
        = .returned (.struct [("shares", .nil), ("total", .int 0)]) :=
  ⟨rfl, ⟨_, rfl, rfl⟩, ⟨_, rfl, rfl⟩, ⟨_, rfl, rfl⟩, ⟨_, rfl, rfl⟩,
    (failure_envelope_returns_zero (stubServer (some failureEnvelope)) connectedMem
      "nas.local" "5000" "admin" "pw" .sconn connectedMem.sconn 200 200 200 200 rfl
      ⟨_, rfl, rfl⟩ ⟨_, rfl, rfl⟩ ⟨_, rfl, rfl⟩ ⟨_, rfl, rfl⟩).2.2.1⟩

/-! ## C9: the package variable `sconn` -/

theorem fetch_returned {α : Type} {T : Transport} {url : String} {t : GoType}
    {sel : GoValue → α} {a : α} (h : (fetch T url t sel).outcome = .returned a) :
    ∃ resp d, Delivers T url resp ∧ Decode resp.body t = some d ∧ a = sel d := by
  unfold fetch at h
  rcases h1 : NewRequest T "GET" url with _ | req
  · simp [h1] at h
  · rcases h2 : T.roundTrip req with _ | resp
    · simp [h1, h2] at h
    · rcases h3 : Decode resp.body t with _ | d
      · simp [h1, h2, h3] at h
      · simp [h1, h2, h3] at h
        exact ⟨resp, d, ⟨req, h1, h2⟩, h3, h.symm⟩

theorem newConnection_returned {T : Transport} {m : Mem} {host port account password : String}
    {c : Ptr} {m' : Mem}
    (h : (NewConnection T m host port account password).outcome = .returned (c, m')) :
    c = .sconn ∧ ∃ tok,
      (fetch T (loginURL ("http://" ++ host ++ ":" ++ port) account password) authResponse
        (fun d => ((d.field "data").field "sid").asString)).outcome = .returned tok ∧
      m' = ⟨⟨"http://" ++ host ++ ":" ++ port, tok⟩, m.heap⟩ := by
  rw [newConnection_eq] at h
  revert h
  rcases fetch T (loginURL ("http://" ++ host ++ ":" ++ port) account password) authResponse
    (fun d => ((d.field "data").field "sid").asString) with ⟨o, ev⟩
  cases o with
  | returned tok =>
    intro h
    simp only [Outcome.returned.injEq, Prod.mk.injEq] at h
    exact ⟨h.1.symm, tok, rfl, h.2.symm⟩
  | fatal => intro h; simp at h
  | panicked => intro h; simp at h

/-- C9: a successful `NewConnection(host, port, account, password)` returns
`&sconn` and leaves in `sconn` exactly the origin `"http://" ++ host ++ ":" ++ port`
and the `data.sid` of the login response, whatever `sconn` held before (from any
other prior memory the same call leaves the same `sconn`).  After two
successive successful calls the pointer returned by the first reads the origin
and the token of the second: both pointers are `&sconn`. -/
theorem newConnection_overwrites_sconn (T1 T2 : Transport) (m : Mem)
    (host1 port1 account1 password1 host2 port2 account2 password2 : String)
    (c1 c2 : Ptr) (m1 m2 : Mem)
    (e1 : (NewConnection T1 m host1 port1 account1 password1).outcome = .returned (c1, m1))
    (e2 : (NewConnection T2 m1 host2 port2 account2 password2).outcome = .returned (c2, m2)) :
    (c1 = .sconn ∧ ∃ resp d,
        Delivers T1 (loginURL ("http://" ++ host1 ++ ":" ++ port1) account1 password1) resp ∧
        Decode resp.body authResponse = some d ∧
        m1.sconn = ⟨"http://" ++ host1 ++ ":" ++ port1, ((d.field "data").field "sid").asString⟩) ∧
      (∀ m0 : Mem, ∃ m0', (NewConnection T1 m0 host1 port1 account1 password1).outcome
          = .returned (.sconn, m0') ∧ m0'.sconn = m1.sconn) ∧
      (c2 = c1 ∧ ∃ resp d,
        Delivers T2 (loginURL ("http://" ++ host2 ++ ":" ++ port2) account2 password2) resp ∧
        Decode resp.body authResponse = some d ∧
        m2.load c1
          = some ⟨"http://" ++ host2 ++ ":" ++ port2, ((d.field "data").field "sid").asString⟩) := by
  obtain ⟨hc1, tok1, hf1, hm1⟩ := newConnection_returned e1
  obtain ⟨hc2, tok2, hf2, hm2⟩ := newConnection_returned e2
  obtain ⟨r1, d1, hd1, hdec1, ht1⟩ := fetch_returned hf1
  obtain ⟨r2, d2, hd2, hdec2, ht2⟩ := fetch_returned hf2
  refine ⟨⟨hc1, r1, d1, hd1, hdec1, ?_⟩, ?_, ⟨hc2.trans hc1.symm, r2, d2, hd2, hdec2, ?_⟩⟩
  · rw [hm1, ht1]
  · intro m0
    refine ⟨⟨⟨"http://" ++ host1 ++ ":" ++ port1, tok1⟩, m0.heap⟩, ?_, ?_⟩
    · rw [newConnection_eq]
      revert hf1
      rcases fetch T1 (loginURL ("http://" ++ host1 ++ ":" ++ port1) account1 password1)
        authResponse (fun d => ((d.field "data").field "sid").asString) with ⟨o, ev⟩
      intro hf1
      simp only at hf1
      subst hf1
      rfl
    · rw [hm1]
  · rw [hc1, hm2, ht2]
    rfl

/-- C9 at two stub servers: after connecting to `nas1` and then to `nas2`, the
pointer of the first call reads the origin and the session id of the second. -/
theorem newConnection_overwrites_sconn_witness :
    (NewConnection (stubServer (some (authEnvelope "sid1" false true))) freshMem
        "nas1" "5000" "admin" "pw").outcome
      = .returned (.sconn, ⟨⟨"http://nas1:5000", "sid1"⟩, freshMem.heap⟩) ∧
    (NewConnection (stubServer (some (authEnvelope "sid2" false true)))
        ⟨⟨"http://nas1:5000", "sid1"⟩, freshMem.heap⟩ "nas2" "5001" "root" "pw2").outcome
      = .returned (.sconn, ⟨⟨"http://nas2:5001", "sid2"⟩, freshMem.heap⟩) ∧
    Ptr.sconn = Ptr.sconn ∧
    ∃ resp d,
      Delivers (stubServer (some (authEnvelope "sid2" false true)))
        (loginURL ("http://" ++ "nas2" ++ ":" ++ "5001") "root" "pw2") resp ∧
      Decode resp.body authResponse = some d ∧
      (⟨⟨"http://nas2:5001", "sid2"⟩, freshMem.heap⟩ : Mem).load .sconn
        = some ⟨"http://" ++ "nas2" ++ ":" ++ "5001", ((d.field "data").field "sid").asString⟩ :=
  ⟨rfl, rfl,
    (newConnection_overwrites_sconn (stubServer (some (authEnvelope "sid1" false true)))
      (stubServer (some (authEnvelope "sid2" false true))) freshMem
      "nas1" "5000" "admin" "pw" "nas2" "5001" "root" "pw2" .sconn .sconn
      ⟨⟨"http://nas1:5000", "sid1"⟩, freshMem.heap⟩ ⟨⟨"http://nas2:5001", "sid2"⟩, freshMem.heap⟩
      rfl rfl).2.2⟩

/-! ## C10: the deferred `resp.Body.Close()` -/

theorem fetch_closes_body_iff {α : Type} (T : Transport) (url : String) (t : GoType)
    (sel : GoValue → α) :
    Event.closeBody ∈ (fetch T url t sel).events
      ↔ ∃ a, (fetch T url t sel).outcome = .returned a := by
  unfold fetch
  rcases h1 : NewRequest T "GET" url with _ | req
  · simp
  · rcases h2 : T.roundTrip req with _ | resp
    · simp [h2]
    · rcases h3 : Decode resp.body t with _ | d <;> simp [h2, h3]

/-- C10 at the failing input: a server answers with a body that is not JSON.
Each operation receives the response, ends in `log.Fatal`, and the only event
is the request: the body is never closed. -/
theorem decode_failure_leaves_body_open :
    ((NewConnection (stubServer none) freshMem "nas.local" "5000" "admin" "pw").outcome = .fatal ∧
      (NewConnection (stubServer none) freshMem "nas.local" "5000" "admin" "pw").events
        = [.request "GET" "http://nas.local:5000/webapi/auth.cgi?api=SYNO.API.Auth&version=6&method=login&account=admin&passwd=pw&session=Core&format=cookie"]) ∧
    ((GetSystemInfo (stubServer none) connectedMem .sconn).outcome = .fatal ∧
      (GetSystemInfo (stubServer none) connectedMem .sconn).events
        = [.request "GET" "http://nas.local:5000/webapi/entry.cgi?api=SYNO.Core.System.Utilization&version=1&method=get&_sid=abc123"]) ∧
    ((GetShareInfo (stubServer none) connectedMem .sconn).outcome = .fatal ∧
      (GetShareInfo (stubServer none) connectedMem .sconn).events
        = [.request "GET" "http://nas.local:5000/webapi/entry.cgi?api=SYNO.Core.Share&shareType=all&additional=%5B%22share_quota%22%5D&method=list&version=1&_sid=abc123"]) ∧
    ((GetStorageInfo (stubServer none) connectedMem .sconn).outcome = .fatal ∧
      (GetStorageInfo (stubServer none) connectedMem .sconn).events
        = [.request "GET" "http://nas.local:5000/webapi/entry.cgi?api=SYNO.Storage.CGI.Storage&version=1&method=load_info&_sid=abc123"]) :=
  ⟨⟨rfl, by decide⟩, ⟨rfl, by decide⟩, ⟨rfl, by decide⟩, ⟨rfl, by decide⟩⟩

/-! ## C6: the `success` flag of the envelope -/

theorem findField_mem {fs : List (String × GoType)} {key : String} {f : String × GoType}
    (h : findField fs key = some f) : f ∈ fs := by
  unfold findField at h
  split at h
  · next g hg =>
    cases h
    exact List.mem_of_find?_eq_some hg
  · exact List.mem_of_find?_eq_some h

theorem object_append (ms1 ms2 : List (String × JSON)) (fs : List (String × GoType))
    (acc : List (String × GoValue)) :
    object (ms1 ++ ms2) fs acc
      = ((object ms2 fs (object ms1 fs acc).1).1,
          (object ms1 fs acc).2 || (object ms2 fs (object ms1 fs acc).1).2) := by
  induction ms1 generalizing acc with
  | nil => simp [object]
  | cons kv ms1 ih =>
    obtain ⟨k, v⟩ := kv
    simp only [List.cons_append, object]
    cases hf : findField fs k with
    | none => simp only [List.append_eq, ih]
    | some f =>
      obtain ⟨tag, ft⟩ := f
      simp only [List.append_eq, ih, Bool.or_assoc]

theorem value_bool_error (v : JSON) (y y' : GoValue) :
    (value v .bool y).2 = (value v .bool y').2 := by
  cases v <;> simp [value]

/-- Decoding the members of an envelope keeps the two fields in place, and
neither the error nor the `data` field depends on what `success` held. -/
theorem object_envelope (D : GoType) (ms : List (String × JSON)) (x y y' : GoValue) :
    (object ms [("data", D), ("success", .bool)] [("data", x), ("success", y)]).2
        = (object ms [("data", D), ("success", .bool)] [("data", x), ("success", y')]).2 ∧
      ∃ x2 y2 y2',
        (object ms [("data", D), ("success", .bool)] [("data", x), ("success", y)]).1
          = [("data", x2), ("success", y2)] ∧
        (object ms [("data", D), ("success", .bool)] [("data", x), ("success", y')]).1
          = [("data", x2), ("success", y2')] := by
  induction ms generalizing x y y' with
  | nil => exact ⟨rfl, x, y, y', rfl, rfl⟩
  | cons kv ms ih =>
    obtain ⟨k, v⟩ := kv
    simp only [object]
    cases hf : findField [("data", D), ("success", GoType.bool)] k with
    | none => exact ih x y y'
    | some f =>
      have hm := findField_mem hf
      simp only [List.mem_cons, List.mem_singleton, List.not_mem_nil, or_false] at hm
      rcases hm with rfl | rfl
      · have hg : ∀ z, getField [("data", x), ("success", z)] "data" (zero D) = x := by
          intro z; simp [getField]
        have hs : ∀ z w, setField [("data", x), ("success", z)] "data" w
            = [("data", w), ("success", z)] := by
          intro z w; simp [setField]
        simp only [hg, hs]
        obtain ⟨h1, x2, y2, y2', h2, h3⟩ := ih (value v D x).1 y y'
        exact ⟨by rw [h1], x2, y2, y2', h2, h3⟩
      · have hg : ∀ z, getField [("data", x), ("success", z)] "success" (zero .bool) = z := by
          intro z; simp [getField]
        have hs : ∀ z w, setField [("data", x), ("success", z)] "success" w
            = [("data", x), ("success", w)] := by
          intro z w; simp [setField]
        simp only [hg, hs]
        obtain ⟨h1, x2, y2, y2', h2, h3⟩ :=
          ih x (value v .bool y).1 (value v .bool y').1
        exact ⟨by rw [h1, value_bool_error v y y'], x2, y2, y2', h2, h3⟩

/-- The decoded `data` of an envelope, or the failure to decode it, does not
depend on the boolean under the key `success`. -/
theorem decode_envelope_success (D : GoType) (pre post : List (String × JSON)) (b b' : Bool) :
    (Decode (some (.obj (pre ++ ("success", .bool b) :: post)))
        (.struct [("data", D), ("success", .bool)])).map (fun d => d.field "data")
      = (Decode (some (.obj (pre ++ ("success", .bool b') :: post)))
        (.struct [("data", D), ("success", .bool)])).map (fun d => d.field "data") := by
  have hz : structFields (zero (.struct [("data", D), ("success", .bool)]))
      [("data", D), ("success", .bool)] = [("data", zero D), ("success", .bool false)] := rfl
  have hff : findField [("data", D), ("success", GoType.bool)] "success"
      = some ("success", .bool) := by
    simp [findField, List.find?]
  obtain ⟨_, x1, y1, _, hpre, _⟩ :=
    object_envelope D pre (zero D) (.bool false) (.bool false)
  have hs : ∀ w, setField [("data", x1), ("success", y1)] "success" w
      = [("data", x1), ("success", w)] := by
    intro w; simp [setField]
  obtain ⟨hpost, x2, y2, y2', h2, h3⟩ := object_envelope D post x1 (.bool b) (.bool b')
  simp only [Decode, value, hz, object_append, object, hff, hpre, hs, hpost, h2, h3]
  cases (object pre [("data", D), ("success", GoType.bool)]
      [("data", zero D), ("success", GoValue.bool false)]).2 <;>
    cases (object post [("data", D), ("success", GoType.bool)]
      [("data", x1), ("success", GoValue.bool b')]).2 <;>
    simp [GoValue.field, getField]

theorem fetch_withBody_congr {α : Type} (T : Transport) (b1 b2 : Option JSON) (url : String)
    (t : GoType) (sel : GoValue → α) (h : (Decode b1 t).map sel = (Decode b2 t).map sel) :
    fetch (T.withBody b1) url t sel = fetch (T.withBody b2) url t sel := by
  have hn : ∀ body, NewRequest (T.withBody body) "GET" url = NewRequest T "GET" url := by
    intro body; rfl
  have hr : ∀ body req, (T.withBody body).roundTrip req
      = (T.roundTrip req).map (fun r => ⟨r.status, body⟩) := by
    intro body req; rfl
  unfold fetch
  rw [hn b1, hn b2]
  rcases h1 : NewRequest T "GET" url with _ | req
  · rfl
  · simp only [hr]
    rcases h2 : T.roundTrip req with _ | resp
    · rfl
    · simp only [Option.map_some']
      rcases h3 : Decode b1 t with _ | d1 <;> rcases h4 : Decode b2 t with _ | d2 <;>
        simp [h3, h4] at h ⊢
      exact h

theorem decode_envelope_success_sel {α : Type} (D : GoType) (pre post : List (String × JSON))
    (b b' : Bool) (g : GoValue → α) :
    (Decode (some (.obj (pre ++ ("success", .bool b) :: post)))
        (.struct [("data", D), ("success", .bool)])).map (fun d => g (d.field "data"))
      = (Decode (some (.obj (pre ++ ("success", .bool b') :: post)))
        (.struct [("data", D), ("success", .bool)])).map (fun d => g (d.field "data")) := by
  have h := congrArg (Option.map g) (decode_envelope_success D pre post b b')
  simpa [Option.map_map, Function.comp] using h

/-- C6: the boolean under the top-level key `success` never influences an
operation.  For two response bodies that differ only in that boolean, sent
by otherwise identical transports, each of `NewConnection`, `GetSystemInfo`,
`GetShareInfo` and `GetStorageInfo` ends the same way on both, with the same
returned value and the same events. -/
theorem success_flag_ignored (T : Transport) (m : Mem) (host port account password : String)
    (conn : Ptr) (pre post : List (String × JSON)) (b b' : Bool) :
    NewConnection (T.withBody (some (.obj (pre ++ ("success", .bool b) :: post)))) m
        host port account password
      = NewConnection (T.withBody (some (.obj (pre ++ ("success", .bool b') :: post)))) m
        host port account password ∧
    GetSystemInfo (T.withBody (some (.obj (pre ++ ("success", .bool b) :: post)))) m conn
      = GetSystemInfo (T.withBody (some (.obj (pre ++ ("success", .bool b') :: post)))) m conn ∧
    GetShareInfo (T.withBody (some (.obj (pre ++ ("success", .bool b) :: post)))) m conn
      = GetShareInfo (T.withBody (some (.obj (pre ++ ("success", .bool b') :: post)))) m conn ∧
    GetStorageInfo (T.withBody (some (.obj (pre ++ ("success", .bool b) :: post)))) m conn
      = GetStorageInfo (T.withBody (some (.obj (pre ++ ("success", .bool b') :: post)))) m
        conn := by
  refine ⟨?_, ?_, ?_, ?_⟩
  · rw [newConnection_eq, newConnection_eq,
      fetch_withBody_congr T _ _ _ authResponse _
        (decode_envelope_success_sel authResponseData pre post b b'
          (fun d => (d.field "sid").asString))]
  · rcases hc : m.load conn with _ | c
    · simp [GetSystemInfo, hc]
    · rw [getSystemInfo_eq_fetch _ m conn c hc, getSystemInfo_eq_fetch _ m conn c hc]
      exact fetch_withBody_congr T _ _ _ _ _
        (decode_envelope_success_sel SystemUtilizationData pre post b b' id)
  · rcases hc : m.load conn with _ | c
    · simp [GetShareInfo, hc]
    · rw [getShareInfo_eq_fetch _ m conn c hc, getShareInfo_eq_fetch _ m conn c hc]
      exact fetch_withBody_congr T _ _ _ _ _
        (decode_envelope_success_sel SharedFolderData pre post b b' id)
  · rcases hc : m.load conn with _ | c
    · simp [GetStorageInfo, hc]
    · rw [getStorageInfo_eq_fetch _ m conn c hc, getStorageInfo_eq_fetch _ m conn c hc]
      exact fetch_withBody_congr T _ _ _ _ _
        (decode_envelope_success_sel StorageData pre post b b' id)

/-! ## C4: the share listing -/

set_option exponentiation.threshold 2048 in
theorem floatOK_homes : floatOK (.dec 1000 (-1)) = true ∧ floatOK (.dec 425 (-1)) = true := by
  decide

set_option exponentiation.threshold 2048 in
theorem floatOK_zero : floatOK (.int 0) = true := by
  decide

set_option exponentiation.threshold 2048 in
theorem floatOK_overflow : floatOK (.dec 1 400) = false := by
  decide

theorem value_shareRecord (r : ShareRecord) (hq : floatOK r.quota_value = true)
    (hu : floatOK r.share_quota_used = true) (cur : GoValue) (hcur : cur = zero (.struct [
      ("desc", .string), ("is_usb_share", .bool), ("name", .string), ("quota_value", .float64),
      ("share_quota_used", .float64), ("uuid", .string), ("vol_path", .string)])) :
    value r.toJSON (.struct [
      ("desc", .string), ("is_usb_share", .bool), ("name", .string), ("quota_value", .float64),
      ("share_quota_used", .float64), ("uuid", .string), ("vol_path", .string)]) cur
      = (r.toGo, false) := by
  subst hcur
  simp [ShareRecord.toJSON, ShareRecord.toGo, value, object, findField, getField, setField,
    zero, zeroFields, structFields, hq, hu]

theorem array_shareRecords (rs : List ShareRecord)
    (h : ∀ r ∈ rs, floatOK r.quota_value = true ∧ floatOK r.share_quota_used = true) :
    array (rs.map ShareRecord.toJSON) (.struct [
      ("desc", .string), ("is_usb_share", .bool), ("name", .string), ("quota_value", .float64),
      ("share_quota_used", .float64), ("uuid", .string), ("vol_path", .string)]) []
      = (rs.map ShareRecord.toGo, false) := by
  induction rs with
  | nil => rfl
  | cons r rs ih =>
    have hr := h r (List.mem_cons_self r rs)
    have ih' := ih (fun x hx => h x (List.mem_cons_of_mem r hx))
    simp only [List.map_cons, array, List.headD_nil, List.tail_nil]
    rw [value_shareRecord r hr.1 hr.2 _ rfl, ih']
    rfl

theorem intOK_of_range (n : Int) (h : -(2 : Int) ^ 63 ≤ n ∧ n < (2 : Int) ^ 63) :
    intOK n = true := by
  obtain ⟨h1, h2⟩ := h
  simp only [intOK, intSize]
  norm_num at h1 h2 ⊢
  exact ⟨h1, h2⟩

theorem decode_shareEnvelope (rs : List ShareRecord) (total : Int) (b : Bool)
    (ht : -(2 : Int) ^ 63 ≤ total ∧ total < (2 : Int) ^ 63)
    (h : ∀ r ∈ rs, floatOK r.quota_value = true ∧ floatOK r.share_quota_used = true) :
    Decode (some (shareEnvelope rs total b)) sharedFolderReponse
      = some (.struct [("data", .struct [("shares", .slice (rs.map ShareRecord.toGo) []),
          ("total", .int total)]), ("success", .bool b)]) := by
  have hi := intOK_of_range total ht
  have ha := array_shareRecords rs h
  simp [Decode, shareEnvelope, sharedFolderReponse, SharedFolderData, value, object, findField,
    getField, setField, zero, zeroFields, structFields, sliceBacking, spareAfter, hi, ha]

theorem decode_homesBody :
    Decode (some homesBody) sharedFolderReponse
      = some (.struct [("data", .struct [("shares", .slice [.struct [("desc", .str ""),
          ("is_usb_share", .bool false), ("name", .str "homes"),
          ("quota_value", .float (.dec 1000 (-1))), ("share_quota_used", .float (.dec 425 (-1))),
          ("uuid", .str "u1"), ("vol_path", .str "/volume1")]] []), ("total", .int 1)]),
          ("success", .bool true)]) := by
  simp [Decode, homesBody, sharedFolderReponse, SharedFolderData, value, object, array, findField,
    getField, setField, zero, zeroFields, structFields, sliceBacking, spareAfter, floatOK_homes.1,
    floatOK_homes.2, intOK, intSize]

/-- C4 as stated fails on the totals and quotas that the Go types exclude: a
total of `2 ^ 63` does not fit `int`, a quota of `1e400` does not fit
`float64`; `Decode` returns an error on either and `GetShareInfo` ends the
process instead of returning the listing. -/
theorem getShareInfo_roundtrip_counterexample :
    (GetShareInfo (stubServer (some (shareEnvelope [] (2 ^ 63) true))) connectedMem
        .sconn).outcome = .fatal ∧
      (GetShareInfo (stubServer (some (shareEnvelope
        [⟨"homes", "", .dec 1 400, .int 0, "u1", "/volume1", false⟩] 1 true))) connectedMem
        .sconn).outcome = .fatal := by
  have h1 : Decode (some (shareEnvelope [] (2 ^ 63) true)) sharedFolderReponse = none := rfl
  have h2 : Decode (some (shareEnvelope
      [⟨"homes", "", .dec 1 400, .int 0, "u1", "/volume1", false⟩] 1 true))
      sharedFolderReponse = none := by
    simp [Decode, shareEnvelope, ShareRecord.toJSON, sharedFolderReponse, SharedFolderData, value,
      object, array, findField, getField, setField, zero, zeroFields, structFields, sliceBacking, spareAfter,
      floatOK_overflow]
  have d1 : Delivers (stubServer (some (shareEnvelope [] (2 ^ 63) true)))
      (shareInfoURL connectedMem.sconn) ⟨200, some (shareEnvelope [] (2 ^ 63) true)⟩ :=
    ⟨_, rfl, rfl⟩
  have d2 : Delivers (stubServer (some (shareEnvelope
      [⟨"homes", "", .dec 1 400, .int 0, "u1", "/volume1", false⟩] 1 true)))
      (shareInfoURL connectedMem.sconn) ⟨200, some (shareEnvelope
      [⟨"homes", "", .dec 1 400, .int 0, "u1", "/volume1", false⟩] 1 true)⟩ :=
    ⟨_, rfl, rfl⟩
  constructor
  · rw [getShareInfo_eq_fetch _ connectedMem .sconn connectedMem.sconn rfl, fetch_of_delivers d1]
    simp only [h1]
  · rw [getShareInfo_eq_fetch _ connectedMem .sconn connectedMem.sconn rfl, fetch_of_delivers d2]
    simp only [h2]

/-- C4, amended: for every list of share records whose quotas are number
tokens within the range of `float64`, and every integer total within the range
of `int` (from `-2 ^ 63` up to `2 ^ 63 - 1`), when the transport answers the
request of `GetShareInfo` with the envelope that states them, `GetShareInfo`
returns a `SharedFolderData` whose `Shares` are the records in the same number
and order, every field holding the value of the record (a quota the `float64`
of its token), and whose `Total` is the total.  The body of the scenario in
the specification yields one share named `homes` and the total 1. -/
theorem getShareInfo_roundtrip (T : Transport) (m : Mem) (conn : Ptr) (c : SynologyConnection)
    (rs : List ShareRecord) (total : Int) (b : Bool) (status : Nat)
    (hc : m.load conn = some c)
    (hd : Delivers T (shareInfoURL c) ⟨status, some (shareEnvelope rs total b)⟩)
    (ht : -(2 : Int) ^ 63 ≤ total ∧ total < (2 : Int) ^ 63)
    (hf : ∀ r ∈ rs, floatOK r.quota_value = true ∧ floatOK r.share_quota_used = true) :
    (GetShareInfo T m conn).outcome
        = .returned (.struct [("shares", .slice (rs.map ShareRecord.toGo) []),
            ("total", .int total)]) ∧
      (GetShareInfo (stubServer (some homesBody)) connectedMem .sconn).outcome
        = .returned (.struct [("shares", .slice [.struct [("desc", .str ""),
            ("is_usb_share", .bool false), ("name", .str "homes"),
            ("quota_value", .float (.dec 1000 (-1))),
            ("share_quota_used", .float (.dec 425 (-1))),
            ("uuid", .str "u1"), ("vol_path", .str "/volume1")]] []), ("total", .int 1)]) := by
  constructor
  · rw [getShareInfo_eq_fetch T m conn c hc, fetch_of_delivers hd]
    simp only [decode_shareEnvelope rs total b ht hf]
    rfl
  · have dh : Delivers (stubServer (some homesBody)) (shareInfoURL connectedMem.sconn)
        ⟨200, some homesBody⟩ := ⟨_, rfl, rfl⟩
    rw [getShareInfo_eq_fetch _ connectedMem .sconn connectedMem.sconn rfl, fetch_of_delivers dh]
    simp only [decode_homesBody]
    rfl

/-- C4, amended, at a listing of two shares. -/
theorem getShareInfo_roundtrip_witness :
    connectedMem.load .sconn = some connectedMem.sconn ∧
      Delivers (stubServer (some (shareEnvelope
          [⟨"homes", "user homes", .dec 1000 (-1), .dec 425 (-1), "u1", "/volume1", false⟩,
            ⟨"usb", "", .int 0, .int 0, "u2", "/volumeUSB1", true⟩] 2 true)))
        (shareInfoURL connectedMem.sconn)
        ⟨200, some (shareEnvelope
          [⟨"homes", "user homes", .dec 1000 (-1), .dec 425 (-1), "u1", "/volume1", false⟩,
            ⟨"usb", "", .int 0, .int 0, "u2", "/volumeUSB1", true⟩] 2 true)⟩ ∧
      (GetShareInfo (stubServer (some (shareEnvelope
          [⟨"homes", "user homes", .dec 1000 (-1), .dec 425 (-1), "u1", "/volume1", false⟩,
            ⟨"usb", "", .int 0, .int 0, "u2", "/volumeUSB1", true⟩] 2 true)))
          connectedMem .sconn).outcome
        = .returned (.struct [("shares", .slice [
            .struct [("desc", .str "user homes"), ("is_usb_share", .bool false),
              ("name", .str "homes"), ("quota_value", .float (.dec 1000 (-1))),
              ("share_quota_used", .float (.dec 425 (-1))), ("uuid", .str "u1"),
              ("vol_path", .str "/volume1")],
            .struct [("desc", .str ""), ("is_usb_share", .bool true), ("name", .str "usb"),
              ("quota_value", .float (.int 0)), ("share_quota_used", .float (.int 0)),
              ("uuid", .str "u2"), ("vol_path", .str "/volumeUSB1")]] []),
            ("total", .int 2)]) :=
  ⟨rfl, ⟨_, rfl, rfl⟩,
    (getShareInfo_roundtrip (stubServer _) connectedMem .sconn connectedMem.sconn
      [⟨"homes", "user homes", .dec 1000 (-1), .dec 425 (-1), "u1", "/volume1", false⟩,
        ⟨"usb", "", .int 0, .int 0, "u2", "/volumeUSB1", true⟩] 2 true 200 rfl
      ⟨_, rfl, rfl⟩ ⟨by decide, by decide⟩
      (by
        intro r hr
        simp only [List.mem_cons, List.mem_singleton, List.not_mem_nil, or_false] at hr
        have hz : floatOK (.int 0) = true := floatOK_zero
        rcases hr with rfl | rfl
        · exact floatOK_homes
        · exact ⟨hz, hz⟩)).1⟩

/-! ## C8: keys the schema does not name, and keys that are missing -/

theorem getField_setField_ne (acc : List (String × GoValue)) (tag tag' : String) (x d : GoValue)
    (h : tag ≠ tag') : getField (setField acc tag' x) tag d = getField acc tag d := by
  induction acc with
  | nil => rfl
  | cons kw acc ih =>
    obtain ⟨k, w⟩ := kw
    simp only [setField]
    by_cases hk : k = tag'
    · subst hk
      have hk' : ¬ k = tag := fun e => h e.symm
      simp [getField, hk']
    · simp only [hk, if_false, getField, ih]

theorem getField_setField_self (acc : List (String × GoValue)) (tag : String) (x d : GoValue)
    (h : tag ∈ acc.map Prod.fst) : getField (setField acc tag x) tag d = x := by
  induction acc with
  | nil => simp at h
  | cons kw acc ih =>
    obtain ⟨k, w⟩ := kw
    simp only [setField]
    by_cases hk : k = tag
    · simp [hk, getField]
    · have h' : tag ∈ acc.map Prod.fst := by
        simp only [List.map_cons, List.mem_cons] at h
        rcases h with h | h
        · exact absurd h.symm hk
        · exact h
      simp only [hk, if_false, getField, ih h']

theorem setField_setField_self (acc : List (String × GoValue)) (tag : String) (x y : GoValue) :
    setField (setField acc tag x) tag y = setField acc tag y := by
  induction acc with
  | nil => rfl
  | cons kw acc ih =>
    obtain ⟨k, w⟩ := kw
    by_cases hk : k = tag
    · simp [setField, hk]
    · simp [setField, hk, ih]

theorem setField_comm (acc : List (String × GoValue)) (tag tag' : String) (x y : GoValue)
    (h : tag ≠ tag') :
    setField (setField acc tag x) tag' y = setField (setField acc tag' y) tag x := by
  induction acc with
  | nil => rfl
  | cons kw acc ih =>
    obtain ⟨k, w⟩ := kw
    by_cases hk : k = tag
    · subst hk
      have hk' : ¬ k = tag' := h
      simp [setField, hk']
    · by_cases hk' : k = tag'
      · subst hk'
        simp [setField, hk]
      · simp [setField, hk, hk', ih]

theorem setField_keys (acc : List (String × GoValue)) (tag : String) (x : GoValue) :
    (setField acc tag x).map Prod.fst = acc.map Prod.fst := by
  induction acc with
  | nil => rfl
  | cons kw acc ih =>
    obtain ⟨k, w⟩ := kw
    by_cases hk : k = tag
    · simp [setField, hk]
    · simp [setField, hk, ih]

theorem setField_getField (acc : List (String × GoValue)) (tag : String) (d : GoValue) :
    setField acc tag (getField acc tag d) = acc := by
  induction acc with
  | nil => rfl
  | cons kw acc ih =>
    obtain ⟨k, w⟩ := kw
    by_cases hk : k = tag
    · simp [setField, getField, hk]
    · simp [setField, getField, hk, ih]

theorem zeroFields_keys (fs : List (String × GoType)) :
    (zeroFields fs).map Prod.fst = fs.map Prod.fst := by
  induction fs with
  | nil => rfl
  | cons f fs ih =>
    obtain ⟨tag, t⟩ := f
    simp [zeroFields, ih]

theorem object_keys (ms : List (String × JSON)) (fs : List (String × GoType))
    (acc : List (String × GoValue)) :
    (object ms fs acc).1.map Prod.fst = acc.map Prod.fst := by
  induction ms generalizing acc with
  | nil => rfl
  | cons kv ms ih =>
    obtain ⟨k, v⟩ := kv
    simp only [object]
    cases hf : findField fs k with
    | none => exact ih acc
    | some f =>
      obtain ⟨tag, ft⟩ := f
      simp only [ih, setField_keys]

theorem find_first_of_fold (fs : List (String × GoType)) (key : String) (f : String × GoType)
    (h : fs.find? (fun g => foldName g.1 == foldName key) = some f) :
    fs.find? (fun g => g.1 == f.1) = some f := by
  induction fs with
  | nil => simp at h
  | cons g fs ih =>
    by_cases hg : foldName g.1 = foldName key
    · rw [List.find?_cons_of_pos _ (by simpa using hg)] at h
      cases h
      rw [List.find?_cons_of_pos _ (by simp)]
    · rw [List.find?_cons_of_neg _ (by simpa using hg)] at h
      have hf : foldName f.1 = foldName key := by
        have := List.find?_some h
        simpa using this
      have hne : ¬ g.1 = f.1 := by
        intro e
        exact hg (by rw [e, hf])
      rw [List.find?_cons_of_neg _ (by simpa using hne)]
      exact ih h

theorem findField_first {fs : List (String × GoType)} {key tag : String} {ft : GoType}
    (h : findField fs key = some (tag, ft)) :
    fs.find? (fun g => g.1 == tag) = some (tag, ft) := by
  unfold findField at h
  split at h
  · next g hg =>
    cases h
    have hk : tag = key := by
      have := List.find?_some hg
      simpa using this
    subst hk
    exact hg
  · exact find_first_of_fold fs key (tag, ft) h

theorem fieldType_of_findField {fs : List (String × GoType)} {key tag : String} {ft : GoType}
    (h : findField fs key = some (tag, ft)) : fieldType fs tag = ft := by
  unfold fieldType
  rw [findField_first h]

theorem getField_zeroFields (fs : List (String × GoType)) (tag : String) (ft : GoType)
    (d : GoValue) (h : fs.find? (fun g => g.1 == tag) = some (tag, ft)) :
    getField (zeroFields fs) tag d = zero ft := by
  induction fs with
  | nil => simp at h
  | cons g fs ih =>
    obtain ⟨k, t⟩ := g
    by_cases hk : k = tag
    · subst hk
      rw [List.find?_cons_of_pos _ (by simp)] at h
      have : t = ft := by simpa using h
      subst this
      simp [zeroFields, getField]
    · rw [List.find?_cons_of_neg _ (by simpa using hk)] at h
      simp [zeroFields, getField, hk, ih h]

theorem mem_keys_of_findField {fs : List (String × GoType)} {key tag : String} {ft : GoType}
    (h : findField fs key = some (tag, ft)) : tag ∈ fs.map Prod.fst := by
  have := findField_mem h
  exact List.mem_map_of_mem Prod.fst this

theorem object_cons_none {fs : List (String × GoType)} {k : String}
    (h : findField fs k = none) (v : JSON) (ms : List (String × JSON))
    (acc : List (String × GoValue)) :
    object ((k, v) :: ms) fs acc = object ms fs acc := by
  simp only [object, h]

theorem object_cons_some {fs : List (String × GoType)} {k tag : String} {ft : GoType}
    (h : findField fs k = some (tag, ft)) (v : JSON) (ms : List (String × JSON))
    (acc : List (String × GoValue)) :
    object ((k, v) :: ms) fs acc
      = ((object ms fs (setField acc tag (value v ft (getField acc tag (zero ft))).1)).1,
          (value v ft (getField acc tag (zero ft))).2 ||
            (object ms fs (setField acc tag (value v ft (getField acc tag (zero ft))).1)).2) := by
  simp only [object, h]

theorem untouched_cons {fs : List (String × GoType)} {tag : String} {kv : String × JSON}
    {ms : List (String × JSON)} (h : Untouched fs tag (kv :: ms)) :
    (∀ f, findField fs kv.1 = some f → f.1 ≠ tag) ∧ Untouched fs tag ms :=
  ⟨h kv (List.mem_cons_self kv ms), fun x hx => h x (List.mem_cons_of_mem kv hx)⟩

theorem untouched_append {fs : List (String × GoType)} {tag : String}
    {ms1 ms2 : List (String × JSON)} (h : Untouched fs tag (ms1 ++ ms2)) :
    Untouched fs tag ms1 ∧ Untouched fs tag ms2 :=
  ⟨fun x hx => h x (List.mem_append_left ms2 hx), fun x hx => h x (List.mem_append_right ms1 hx)⟩

/-- Members that are not decoded into the field `tag` leave it as it is. -/
theorem object_untouched_get (ms : List (String × JSON)) (fs : List (String × GoType))
    (tag : String) (h : Untouched fs tag ms) (acc : List (String × GoValue)) (d : GoValue) :
    getField (object ms fs acc).1 tag d = getField acc tag d := by
  induction ms generalizing acc with
  | nil => rfl
  | cons kv ms ih =>
    obtain ⟨k, v⟩ := kv
    obtain ⟨h1, h2⟩ := untouched_cons h
    cases hf : findField fs k with
    | none => rw [object_cons_none hf]; exact ih h2 acc
    | some f =>
      obtain ⟨tag', ft⟩ := f
      have hne : tag ≠ tag' := fun e => h1 _ hf e.symm
      rw [object_cons_some hf]
      simp only [ih h2, getField_setField_ne _ _ _ _ _ hne]

/-- Members that are not decoded into the field `tag` do not see what it holds. -/
theorem object_untouched_set (ms : List (String × JSON)) (fs : List (String × GoType))
    (tag : String) (h : Untouched fs tag ms) (acc : List (String × GoValue)) (x : GoValue) :
    object ms fs (setField acc tag x)
      = (setField (object ms fs acc).1 tag x, (object ms fs acc).2) := by
  induction ms generalizing acc with
  | nil => rfl
  | cons kv ms ih =>
    obtain ⟨k, v⟩ := kv
    obtain ⟨h1, h2⟩ := untouched_cons h
    cases hf : findField fs k with
    | none => rw [object_cons_none hf, object_cons_none hf]; exact ih h2 acc
    | some f =>
      obtain ⟨tag', ft⟩ := f
      have hne : tag' ≠ tag := h1 _ hf
      rw [object_cons_some hf, object_cons_some hf]
      rw [getField_setField_ne _ _ _ _ _ hne, setField_comm _ _ _ _ _ hne.symm, ih h2]

theorem array_append (xs1 xs2 : List JSON) (et : GoType) (old : List GoValue) :
    array (xs1 ++ xs2) et old
      = ((array xs1 et old).1 ++ (array xs2 et (old.drop xs1.length)).1,
          (array xs1 et old).2 || (array xs2 et (old.drop xs1.length)).2) := by
  induction xs1 generalizing old with
  | nil => simp [array]
  | cons x xs1 ih =>
    simp only [List.cons_append, array, List.append_eq, ih, List.length_cons, Bool.or_assoc]
    cases old <;> simp

theorem array_cons (x : JSON) (xs : List JSON) (et : GoType) (old : List GoValue) :
    array (x :: xs) et old
      = ((value x et (old.headD (zero et))).1 :: (array xs et old.tail).1,
          (value x et (old.headD (zero et))).2 || (array xs et old.tail).2) := by
  simp only [array]

theorem array_length (xs : List JSON) (et : GoType) (old : List GoValue) :
    (array xs et old).1.length = xs.length := by
  induction xs generalizing old with
  | nil => rfl
  | cons x xs ih => simp [array_cons, ih]

/-- C8, first part, on values: a member added under a key that matches no
field changes neither the decoded value nor the error. -/
theorem value_addsKey {t : GoType} {j j' : JSON} (h : AddsKey t j j') :
    ∀ cur, value j t cur = value j' t cur := by
  induction h with
  | here fs pre post k v hf =>
    intro cur
    simp only [value, object_append, object_cons_none hf]
  | skipped fs pre post k v v' hf =>
    intro cur
    simp only [value, object_append, object_cons_none hf]
  | field fs pre post k v v' tag ft hf _ ih =>
    intro cur
    simp only [value, object_append, object_cons_some hf, ih]
  | elem et pre post x x' _ ih =>
    intro cur
    simp only [value, array_append, array_cons, ih, List.length_append, List.length_cons]

theorem set_length_append (A B : List GoValue) (y y' : GoValue) :
    (A ++ y :: B).set A.length y' = A ++ y' :: B := by
  induction A with
  | nil => rfl
  | cons a A ih => simp [ih]

theorem getD_length_append (A B : List GoValue) (y d : GoValue) :
    (A ++ y :: B).getD A.length d = y := by
  induction A with
  | nil => rfl
  | cons a A ih => simpa using ih

/-- C8, second part, on values: when the only member decoded into a field is
removed, the value decodes as before with that field at its zero value. -/
theorem value_removesKey {p : List Step} {t : GoType} {j j' : JSON}
    (h : RemovesKey p t j j') :
    ∀ v, value j t (zero t) = (v, false) → value j' t (zero t) = (resetAt p t v, false) := by
  induction h with
  | here fs pre post k w tag ft hf hu =>
    intro v hv
    obtain ⟨hu1, hu2⟩ := untouched_append hu
    have hz : structFields (zero (.struct fs)) fs = zeroFields fs := rfl
    simp only [value, hz, object_append, object_cons_some hf, Prod.mk.injEq,
      Bool.or_eq_false_iff] at hv ⊢
    obtain ⟨hv1, h1, h2, h3⟩ := hv
    rw [object_untouched_set post fs tag hu2] at hv1 h3
    simp only at hv1 h3
    have hget : getField (object post fs (object pre fs (zeroFields fs)).1).1 tag (zero ft)
        = zero ft := by
      rw [object_untouched_get post fs tag hu2, object_untouched_get pre fs tag hu1,
        getField_zeroFields fs tag ft _ (findField_first hf)]
    refine ⟨?_, h1, h3⟩
    rw [← hv1]
    simp only [resetAt, setField_setField_self, fieldType_of_findField hf]
    have := setField_getField (object post fs (object pre fs (zeroFields fs)).1).1 tag (zero ft)
    rw [hget] at this
    simp only [zero, this]
  | field fs pre post k w w' tag ft p hf hu _ ih =>
    intro v hv
    obtain ⟨hu1, hu2⟩ := untouched_append hu
    have hz : structFields (zero (.struct fs)) fs = zeroFields fs := rfl
    have hcur : getField (object pre fs (zeroFields fs)).1 tag (zero ft) = zero ft := by
      rw [object_untouched_get pre fs tag hu1,
        getField_zeroFields fs tag ft _ (findField_first hf)]
    simp only [value, hz, object_append, object_cons_some hf, hcur, Prod.mk.injEq,
      Bool.or_eq_false_iff] at hv ⊢
    obtain ⟨hv1, h1, h2, h3⟩ := hv
    have ih' := ih (value w ft (zero ft)).1 (Prod.ext rfl h2)
    rw [object_untouched_set post fs tag hu2] at hv1 h3
    simp only at hv1 h3
    rw [ih', object_untouched_set post fs tag hu2]
    refine ⟨?_, h1, rfl, h3⟩
    rw [← hv1]
    have hmem : tag ∈ (object post fs (object pre fs (zeroFields fs)).1).1.map Prod.fst := by
      rw [object_keys, object_keys, zeroFields_keys]
      exact mem_keys_of_findField hf
    simp only [resetAt, setField_setField_self, fieldType_of_findField hf,
      getField_setField_self _ _ _ _ hmem]
  | elem et pre post x x' p _ ih =>
    intro v hv
    have hs : sliceBacking (zero (.slice et)) = [] := rfl
    have hsp : ∀ n, spareAfter n [] = [] := by
      intro n; unfold spareAfter; split <;> simp
    simp only [value, hs, hsp, array_append, array_cons, List.drop_nil, List.headD_nil,
      List.tail_nil, Prod.mk.injEq, Bool.or_eq_false_iff] at hv ⊢
    obtain ⟨hv1, h1, h2, h3⟩ := hv
    have ih' := ih (value x et (zero et)).1 (Prod.ext rfl h2)
    rw [ih']
    refine ⟨?_, h1, rfl, h3⟩
    rw [← hv1]
    have hl : pre.length = (array pre et []).1.length := (array_length pre et []).symm
    simp only [resetAt, hl, set_length_append, getD_length_append]

theorem decode_eq_some_iff (j : JSON) (t : GoType) (v : GoValue) :
    Decode (some j) t = some v ↔ value j t (zero t) = (v, false) := by
  simp only [Decode]
  generalize value j t (zero t) = r
  obtain ⟨a, e⟩ := r
  cases e <;> simp

/-- C8 as stated fails, in both parts.  (1) The key `SID` is not a key of the
schema, yet it is decoded into the field tagged `sid`: added with a number to a
login body that decodes, it makes `Decode` fail.  An object under an
`interface{}` field keeps every key: a key added to a hot spare changes the
decoded `HotSpares`.  (2) When a body states `sid` twice, removing the second
leaves the first in the field, not the zero value. -/
theorem decode_key_edit_counterexample :
    (Decode (some sidBody) authResponse
        = some (.struct [("data", .struct [("is_portal_port", .bool false),
            ("sid", .str "abc123")]), ("success", .bool true)]) ∧
      Decode (some sidUpperBody) authResponse = none) ∧
    ((Decode (some hotSpareBody) storageResponse).map
          (fun d => (d.field "data").field "hotSpares") = some (.slice [.map []] []) ∧
      (Decode (some hotSpareIdBody) storageResponse).map
          (fun d => (d.field "data").field "hotSpares")
        = some (.slice [.map [("id", .str "sda")]] []) ∧
      Decode (some hotSpareBody) storageResponse ≠ Decode (some hotSpareIdBody) storageResponse) ∧
    (Decode (some twoSidBody) authResponse
        = some (.struct [("data", .struct [("is_portal_port", .bool false),
            ("sid", .str "second")]), ("success", .bool true)]) ∧
      Decode (some firstSidBody) authResponse
        = some (.struct [("data", .struct [("is_portal_port", .bool false),
            ("sid", .str "first")]), ("success", .bool true)]) ∧
      Decode (some firstSidBody) authResponse
        ≠ some (.struct [("data", .struct [("is_portal_port", .bool false),
            ("sid", .str "")]), ("success", .bool true)])) := by
  have h1 : (Decode (some hotSpareBody) storageResponse).map
      (fun d => (d.field "data").field "hotSpares") = some (.slice [.map []] []) := rfl
  have h2 : (Decode (some hotSpareIdBody) storageResponse).map
      (fun d => (d.field "data").field "hotSpares")
        = some (.slice [.map [("id", .str "sda")]] []) := rfl
  have h3 : Decode (some firstSidBody) authResponse
      = some (.struct [("data", .struct [("is_portal_port", .bool false),
          ("sid", .str "first")]), ("success", .bool true)]) := rfl
  refine ⟨⟨rfl, rfl⟩, ⟨h1, h2, ?_⟩, ⟨rfl, h3, ?_⟩⟩
  · intro h
    have h' := congrArg (Option.map (fun d => (d.field "data").field "hotSpares")) h
    rw [h1, h2] at h'
    simp at h'
  · rw [h3]
    simp

/-- C8, amended: for every response body that decodes into a type of the
package, the envelope type of each endpoint included, (1) adding a member to an object of the body that is decoded
into a struct, under a key that matches no field of that struct (not even up
to case), or changing anything inside the value of such a key, yields a body
that decodes to the same result; objects under an `interface{}` field are
excepted, they keep every key.  (2) Removing a member that is decoded into a
field, when no other member of its object and of the objects on the way down
is decoded into the same field, yields a body that decodes to the original
result with that field at its zero value. -/
theorem decode_total_over_schema (t : GoType) (j j' : JSON) (v : GoValue)
    (h : Decode (some j) t = some v) :
    (AddsKey t j j' → Decode (some j') t = some v) ∧
      (∀ p, RemovesKey p t j j' → Decode (some j') t = some (resetAt p t v)) := by
  rw [decode_eq_some_iff] at h
  constructor
  · intro ha
    rw [decode_eq_some_iff, ← value_addsKey ha]
    exact h
  · intro p hr
    rw [decode_eq_some_iff]
    exact value_removesKey hr v h

/-- C8, amended, on a login body: the key `trace` added next to `sid` changes
nothing, and with `sid` removed the token is the empty string. -/
theorem decode_total_over_schema_witness :
    Decode (some sidBody) authResponse
        = some (.struct [("data", .struct [("is_portal_port", .bool false),
            ("sid", .str "abc123")]), ("success", .bool true)]) ∧
      AddsKey authResponse sidBody sidTraceBody ∧
      Decode (some sidTraceBody) authResponse
        = some (.struct [("data", .struct [("is_portal_port", .bool false),
            ("sid", .str "abc123")]), ("success", .bool true)]) ∧
      RemovesKey [.field "data", .field "sid"] authResponse sidBody noSidBody ∧
      Decode (some noSidBody) authResponse
        = some (.struct [("data", .struct [("is_portal_port", .bool false),
            ("sid", .str "")]), ("success", .bool true)]) := by
  have ha : AddsKey authResponse sidBody sidTraceBody :=
    AddsKey.field [("data", authResponseData), ("success", .bool)] []
      [("success", .bool true)] "data" (.obj [("sid", .str "abc123")])
      (.obj [("sid", .str "abc123"), ("trace", .arr [.num (.int 1), .null])])
      "data" authResponseData rfl
      (AddsKey.here [("is_portal_port", .bool), ("sid", .string)] [("sid", .str "abc123")] []
        "trace" (.arr [.num (.int 1), .null]) rfl)
  have hr : RemovesKey [.field "data", .field "sid"] authResponse sidBody noSidBody :=
    RemovesKey.field [("data", authResponseData), ("success", .bool)] []
      [("success", .bool true)] "data" (.obj [("sid", .str "abc123")]) (.obj [])
      "data" authResponseData [.field "sid"] rfl
      (by
        intro kv hkv f hf
        simp only [List.nil_append, List.mem_singleton] at hkv
        subst hkv
        have : f = ("success", GoType.bool) := by
          have h' : findField [("data", authResponseData), ("success", GoType.bool)] "success"
              = some ("success", GoType.bool) := rfl
          rw [h'] at hf
          exact (Option.some.inj hf).symm
        subst this
        decide)
      (RemovesKey.here [("is_portal_port", .bool), ("sid", .string)] [] [] "sid"
        (.str "abc123") "sid" .string rfl
        (by intro kv hkv; simp at hkv))
  exact ⟨rfl, ha,
    (decode_total_over_schema authResponse sidBody sidTraceBody _ rfl).1 ha,
    hr,
    (decode_total_over_schema authResponse sidBody noSidBody _ rfl).2 _ hr⟩

/-! ## C11: credentials in the login URL -/

theorem loginURL_collision (origin : String) :
    loginURL origin "a" "b&passwd=c" = loginURL origin "a&passwd=b" "c" ∧
      loginURL origin "a" "b&passwd=c"
        = origin ++ "/webapi/auth.cgi?api=SYNO.API.Auth&version=6&method=login&account=a&passwd=b&passwd=c&session=Core&format=cookie" := by
  unfold loginURL
  simp only [String.append_assoc]
  exact ⟨rfl, rfl⟩

/-- C11: `getSIDToken` puts the account and the password into the login URL as
they are.  For every origin and transport the request it issues is the one built from
the URL `origin ++ "...&account=" ++ account ++ "&passwd=" ++ password ++ "..."`,
and this URL is not an injective function of the credentials: the distinct
pairs `("a", "b&passwd=c")` and `("a&passwd=b", "c")` give the same URL,
ending in `&account=a&passwd=b&passwd=c&session=Core&format=cookie`, hence the
same run of `getSIDToken`.  Against a stub server both calls issue the same
single request. -/
theorem credentials_not_injective (T : Transport) (m : Mem) :
    (∀ account password : String,
        requests (getSIDToken T m account password).events
          = (if (NewRequest T "GET" (m.sconn.origin
                ++ "/webapi/auth.cgi?api=SYNO.API.Auth&version=6&method=login&account="
                ++ account ++ "&passwd=" ++ password ++ "&session=Core&format=cookie")).isSome
            then [("GET", T.render (m.sconn.origin
                ++ "/webapi/auth.cgi?api=SYNO.API.Auth&version=6&method=login&account="
                ++ account ++ "&passwd=" ++ password ++ "&session=Core&format=cookie"))]
            else [])) ∧
      ¬ Function.Injective (fun cred : String × String =>
          m.sconn.origin ++ "/webapi/auth.cgi?api=SYNO.API.Auth&version=6&method=login&account="
            ++ cred.1 ++ "&passwd=" ++ cred.2 ++ "&session=Core&format=cookie") ∧
      (("a", "b&passwd=c") : String × String) ≠ ("a&passwd=b", "c") ∧
      m.sconn.origin ++ "/webapi/auth.cgi?api=SYNO.API.Auth&version=6&method=login&account="
          ++ "a" ++ "&passwd=" ++ "b&passwd=c" ++ "&session=Core&format=cookie"
        = m.sconn.origin
          ++ "/webapi/auth.cgi?api=SYNO.API.Auth&version=6&method=login&account=a&passwd=b&passwd=c&session=Core&format=cookie" ∧
      m.sconn.origin ++ "/webapi/auth.cgi?api=SYNO.API.Auth&version=6&method=login&account="
          ++ "a&passwd=b" ++ "&passwd=" ++ "c" ++ "&session=Core&format=cookie"
        = m.sconn.origin
          ++ "/webapi/auth.cgi?api=SYNO.API.Auth&version=6&method=login&account=a&passwd=b&passwd=c&session=Core&format=cookie" ∧
      getSIDToken T m "a" "b&passwd=c" = getSIDToken T m "a&passwd=b" "c" ∧
      requests (getSIDToken (stubServer (some (authEnvelope "abc123" false true))) connectedMem
          "a" "b&passwd=c").events
        = [("GET", "http://nas.local:5000/webapi/auth.cgi?api=SYNO.API.Auth&version=6&method=login&account=a&passwd=b&passwd=c&session=Core&format=cookie")] ∧
      requests (getSIDToken (stubServer (some (authEnvelope "abc123" false true))) connectedMem
          "a&passwd=b" "c").events
        = [("GET", "http://nas.local:5000/webapi/auth.cgi?api=SYNO.API.Auth&version=6&method=login&account=a&passwd=b&passwd=c&session=Core&format=cookie")] := by
  have hne : (("a", "b&passwd=c") : String × String) ≠ ("a&passwd=b", "c") := by decide
  have hcol := loginURL_collision m.sconn.origin
  have hurl : ∀ account password : String,
      m.sconn.origin ++ "/webapi/auth.cgi?api=SYNO.API.Auth&version=6&method=login&account="
        ++ account ++ "&passwd=" ++ password ++ "&session=Core&format=cookie"
        = loginURL m.sconn.origin account password := fun _ _ => rfl
  refine ⟨?_, ?_, hne, ?_, ?_, ?_, by decide, by decide⟩
  · intro account password
    rw [getSIDToken_eq_fetch, hurl]
    exact fetch_requests _ _ _ _
  · intro hinj
    exact hne (@hinj ("a", "b&passwd=c") ("a&passwd=b", "c")
      (by simp only [hurl]; exact hcol.1))
  · rw [hurl]; exact hcol.2
  · rw [hurl, ← hcol.1]; exact hcol.2
  · rw [getSIDToken_eq_fetch, getSIDToken_eq_fetch, hcol.1]

end Synology
